import Mathlib

/-!
Verification development for the ApplyBot job-application automation engine.

Each definition below is a shallow embedding of one function of the Python
source (file and line references are given in the doc comments).  Machine
behaviour that cannot influence the verified properties (logging, sleeps,
HTTP plumbing) is omitted; everything that decides a verified property is
transcribed faithfully.  Times are modelled as integer seconds, dictionaries
as structures with `Option`-typed fields (Python `dict.get(k, d)` becomes
`Option.getD`).
-/

set_option maxRecDepth 10000

/-! ### Python string primitives

Character-level helpers mirroring the Python string operations used by the
source (`str.lower`, the `in` substring test, `str.strip`, `re` patterns).
Lowercasing covers ASCII and the Cyrillic range actually present in the
repository's data (А..Я, Ё).
-/

/-- Python `str.lower` on one character: ASCII A-Z, Cyrillic А-Я and Ё. -/
def pyLowerChar (c : Char) : Char :=
  if 'A' ≤ c ∧ c ≤ 'Z' then Char.ofNat (c.toNat + 32)
  else if c.toNat ≥ 0x410 ∧ c.toNat ≤ 0x42F then Char.ofNat (c.toNat + 0x20)
  else if c.toNat = 0x401 then Char.ofNat 0x451
  else c

/-- Python `str.lower` over a whole string. -/
def pyLower (s : String) : String :=
  ⟨s.data.map pyLowerChar⟩

/-- Python whitespace class `\s` (ASCII part, which is all the source feeds it). -/
def pyIsSpace (c : Char) : Bool :=
  c = ' ' ∨ c = '\t' ∨ c = '\n' ∨ c = '\r' ∨ c = '\x0b' ∨ c = '\x0c'

/-- `List` prefix test used to build the Python substring (`in`) test. -/
def listIsPrefix : List Char → List Char → Bool
  | [], _ => true
  | _ :: _, [] => false
  | p :: ps, h :: hs => p = h && listIsPrefix ps hs

/-- Python `needle in hay` substring test on character lists. -/
def listContainsSub (needle : List Char) : List Char → Bool
  | [] => needle.isEmpty
  | h :: hs => listIsPrefix needle (h :: hs) || listContainsSub needle hs

/-- Python `needle in hay` substring test on strings. -/
def strContains (hay needle : String) : Bool :=
  listContainsSub needle.data hay.data

/-- Python `str.strip()` (drop leading and trailing whitespace). -/
def pyStrip (s : String) : String :=
  ⟨((s.data.dropWhile pyIsSpace).reverse.dropWhile pyIsSpace).reverse⟩

/-- Python `str.split(",")`. -/
def splitOnComma (s : String) : List String :=
  (s.data.splitOnP (· = ',')).map (fun l => ⟨l⟩)

/-! ### C8 — token expiry (`src/app/models/token.py`) -/

/-- `Token` row of the `hh_tokens` table (`src/app/models/token.py`, lines
15-29).  Times are integer seconds. -/
structure Token where
  access_token : String
  refresh_token : String
  expires_in : Int
  obtained_at : Int

/-- `Token.is_expired` (`src/app/models/token.py`, lines 26-29):
`expiry = obtained_at + (expires_in - buffer_seconds)`;
returns `datetime.now(UTC) > expiry` (strict). -/
def Token.is_expired (t : Token) (now : Int) (buffer_seconds : Int := 300) : Bool :=
  let expiry := t.obtained_at + (t.expires_in - buffer_seconds)
  now > expiry

/-- C8: the claim says a token is expired exactly when
`now ≥ obtained_at + expires_in − 300`, in particular at the boundary instant
itself.  False: the code uses a strict comparison, so at the boundary instant
(`now = obtained_at + expires_in − 300`, here `700 = 0 + 1000 − 300`)
`is_expired` returns `false` although the claim demands `true`. -/
theorem C8_counterexample :
    (Token.mk "a" "r" 1000 0).is_expired 700 300 = false ∧
      ((700 : Int) ≥ 0 + 1000 - 300) := by
  constructor
  · rfl
  · decide

/-- C8 (amended): `Token.is_expired` returns `true` iff the current time is
strictly past the buffered expiry instant, equivalently iff
`now ≥ obtained_at + expires_in − buffer + 1`; at the boundary instant itself
the token is still considered valid. -/
theorem C8_token_expiry_strict (t : Token) (now buffer : Int) :
    (t.is_expired now buffer = true ↔
       now ≥ t.obtained_at + t.expires_in - buffer + 1) ∧
      t.is_expired (t.obtained_at + t.expires_in - buffer) buffer = false := by
  constructor
  · unfold Token.is_expired
    simp only [decide_eq_true_eq]
    omega
  · unfold Token.is_expired
    simp only [decide_eq_false_iff_not]
    omega

/-! ### C9 — position-to-queries parser
(`src/app/services/application_service.py`, `_parse_position_to_queries`,
lines 635-686).  The `re` operations the source uses are embedded
character-by-character with Python's leftmost-match semantics. -/

/-- First match of `re.search(r"\(([^)]+)\)", s)`: scan left to right for a
`'('` followed by a non-empty run of non-`')'` characters and a closing
`')'`; the group is that run. -/
def findParenGroup : List Char → Option (List Char)
  | [] => none
  | '(' :: rest =>
      let inner := rest.takeWhile (· ≠ ')')
      if inner.isEmpty then findParenGroup rest
      else
        match rest.drop inner.length with
        | ')' :: _ => some inner
        | _ => findParenGroup rest
  | _ :: rest => findParenGroup rest

/-- Global substitution `re.sub(r"\s*\([^)]*\)\s*", "", s)`: at each position
try to match optional whitespace, a parenthesised non-`')'` run, `')'` and
trailing whitespace; delete matches, otherwise advance one character.  `fuel`
bounds the scan (one unit per consumed character; callers pass the length). -/
def removeParenGroupsGo : Nat → List Char → List Char
  | 0, l => l
  | _ + 1, [] => []
  | fuel + 1, c :: cs =>
      let l := c :: cs
      let wsRun := l.takeWhile pyIsSpace
      match l.drop wsRun.length with
      | '(' :: rest =>
          let inner := rest.takeWhile (· ≠ ')')
          (match rest.drop inner.length with
            | ')' :: tail => removeParenGroupsGo fuel (tail.dropWhile pyIsSpace)
            | _ => c :: removeParenGroupsGo fuel cs)
      | _ => c :: removeParenGroupsGo fuel cs

/-- `re.sub(r"\s+", " ", s)`: collapse every whitespace run to one space.
The flag records whether the previous character was whitespace. -/
def collapseWsGo : List Char → Bool → List Char
  | [], _ => []
  | c :: cs, prevWs =>
      if pyIsSpace c then
        if prevWs then collapseWsGo cs true else ' ' :: collapseWsGo cs true
      else c :: collapseWsGo cs false

/-- Python `\w` for the alphabets this repository feeds it: ASCII
alphanumerics, `'_'`, and the Cyrillic block U+0400-U+04FF. -/
def isWordChar (c : Char) : Bool :=
  ('a' ≤ c ∧ c ≤ 'z') ∨ ('A' ≤ c ∧ c ≤ 'Z') ∨ ('0' ≤ c ∧ c ≤ '9') ∨
    c = '_' ∨ (0x400 ≤ c.toNat ∧ c.toNat ≤ 0x4FF)

/-- `re.search(rf"\b({word})\b", s, re.IGNORECASE)`: first case-insensitive
word-bounded occurrence, returning the matched text with its original case
(`match.group(1)`).  `prev` is the character before the scan position. -/
def findWordBoundedGo (word : List Char) : Option Char → List Char → Option (List Char)
  | _, [] => none
  | prev, c :: cs =>
      let l := c :: cs
      let candidate := l.take word.length
      if decide (candidate.length = word.length) &&
          decide (candidate.map pyLowerChar = word.map pyLowerChar) &&
          (match prev with | none => true | some p => ! isWordChar p) &&
          (match l.drop word.length with | [] => true | nc :: _ => ! isWordChar nc)
      then some candidate
      else findWordBoundedGo word (some c) cs

/-- Role words of `_parse_position_to_queries`
(`application_service.py`, line 669). -/
def role_words : List String := ["разработчик", "developer", "инженер", "engineer", "программист"]

/-- The `for word in role_words` loop of `_parse_position_to_queries`
(lines 670-677): first role word contained (substring, lowercased) in the
cleaned main part whose word-bounded case-insensitive search succeeds. -/
def findBaseRole : List String → String → Option String
  | [], _ => none
  | w :: ws, main =>
      if strContains (pyLower main) w then
        match findWordBoundedGo w.data none main.data with
        | some m => some ⟨m⟩
        | none => findBaseRole ws main
      else findBaseRole ws main

/-- `ApplicationService._parse_position_to_queries`
(`src/app/services/application_service.py`, lines 635-686). -/
def parse_position_to_queries (position : String) : List String :=
  let keywords_in_parens : List String :=
    match findParenGroup position.data with
    | some grp => ((splitOnComma ⟨grp⟩).map pyStrip).filter (fun kw => kw ≠ "")
    | none => []
  let main_part := pyStrip ⟨removeParenGroupsGo position.data.length position.data⟩
  let dashless : List Char :=
    main_part.data.map
      (fun c => if c = '-' ∨ c.toNat = 0x2013 ∨ c.toNat = 0x2014 then ' ' else c)
  let main_part_clean := pyStrip ⟨collapseWsGo dashless false⟩
  let queries0 : List String := if main_part_clean ≠ "" then [main_part_clean] else []
  let base_role := findBaseRole role_words main_part_clean
  let kwQueries := keywords_in_parens.map
    (fun kw => match base_role with
      | some r => kw ++ " " ++ r
      | none => kw)
  let queries := queries0 ++ kwQueries
  if queries.isEmpty then [position] else queries

/-- C9: the parser maps `"Python-разработчик (Django, FastAPI)"` to exactly
`["Python разработчик", "Django разработчик", "FastAPI разработчик"]` and
`"Backend developer"` to exactly `["Backend developer"]`. -/
theorem C9_parse_position_examples :
    parse_position_to_queries "Python-разработчик (Django, FastAPI)" =
        ["Python разработчик", "Django разработчик", "FastAPI разработчик"] ∧
      parse_position_to_queries "Backend developer" = ["Backend developer"] := by
  constructor
  · rfl
  · rfl

/-! ### Data model — vacancies and bulk requests
(`src/app/schemas/apply.py`, `src/app/utils/filters.py`).  Every Python
`dict.get(key, default)` access becomes an `Option` field read with
`Option.getD`/`Option.bind`. -/

/-- `vacancy["employer"]` sub-record. -/
structure Employer where
  name : Option String := none

/-- `vacancy["salary"]` sub-record; `salary_from`/`salary_to` embed the JSON
keys `from`/`to` (Lean keywords). -/
structure Salary where
  salary_from : Option Int := none
  salary_to : Option Int := none

/-- One entry of `vacancy["key_skills"]`. -/
structure KeySkill where
  name : Option String := none

/-- Generic `{id, name}` sub-record (`schedule`, `employment`, `experience`). -/
structure IdName where
  id : Option String := none
  name : Option String := none

/-- `vacancy["test"]` sub-record. -/
structure VacancyTest where
  url : Option String := none
  href : Option String := none
  required : Option Bool := none

/-- `vacancy["branded_template"]` sub-record. -/
structure BrandedTemplate where
  external_form_url : Option String := none

/-- Transient vacancy record from the external board (spec §3). -/
structure Vacancy where
  id : Option String := none
  name : Option String := none
  employer : Option Employer := none
  archived : Option Bool := none
  salary : Option Salary := none
  schedule : Option IdName := none
  employment : Option IdName := none
  experience : Option IdName := none
  description : Option String := none
  key_skills : List KeySkill := []
  address : Option String := none
  relations : List String := []
  response_letter_required : Option Bool := none
  test : Option VacancyTest := none
  branded_template : Option BrandedTemplate := none

/-- `BulkApplyRequest` (`src/app/schemas/apply.py`, lines 16-45, including the
`ApplyRequest` base fields). -/
structure BulkApplyRequest where
  position : String
  resume : Option String := none
  skills : Option String := none
  experience : Option String := none
  resume_id : String
  exclude_companies : Option (List String) := none
  salary_min : Option Int := none
  remote_only : Option Bool := some false
  experience_level : Option String := none
  required_skills : Option (List String) := none
  excluded_keywords : Option (List String) := none
  employment_types : Option (List String) := none
  max_commute_time : Option Int := none
  preferred_schedule : Option (List String) := none

/-- Python truthiness of an optional list (`None` and `[]` are falsy). -/
def optListTruthy (o : Option (List α)) : Bool :=
  match o with
  | some l => !l.isEmpty
  | none => false

/-- Python truthiness of an optional integer (`None` and `0` are falsy). -/
def optIntTruthy (o : Option Int) : Bool :=
  match o with
  | some v => decide (v ≠ 0)
  | none => false

/-- Python truthiness of an optional bool (`None` is falsy). -/
def optBoolTruthy (o : Option Bool) : Bool := o.getD false

/-- Python truthiness of an optional string (`None` and `""` are falsy). -/
def optStrTruthy (o : Option String) : Bool :=
  match o with
  | some s => decide (s ≠ "")
  | none => false

/-! ### C2 — Filter Engine (`src/app/utils/filters.py`, `ApplicationFilter`) -/

/-- `ApplicationFilter._meets_salary_requirement` (`filters.py`, lines 73-83):
no salary info is acceptable; otherwise `salary["from"]` must be truthy and
at least `salary_min`. -/
def meets_salary_requirement (req : BulkApplyRequest) (v : Vacancy) : Bool :=
  match v.salary with
  | none => true
  | some salary =>
      match salary.salary_from with
      | some sf => decide (sf ≠ 0) && decide (sf ≥ req.salary_min.getD 0)
      | none => false

/-- `ApplicationFilter._is_remote_position` (`filters.py`, lines 85-101):
remote keyword in `schedule.name` or remote phrase in `description`
(both lowercased). -/
def is_remote_position (v : Vacancy) : Bool :=
  let schedule := pyLower ((v.schedule.bind IdName.name).getD "")
  if ["удален", "remote", "дистанцион", "на дому"].any
      (fun k => strContains schedule k) then true
  else
    let description := pyLower (v.description.getD "")
    ["удаленная работа", "remote work", "работа из дома", "дистанционная работа"].any
      (fun k => strContains description k)

/-- `ApplicationFilter._matches_experience_level` (`filters.py`, lines
103-128): exact match, or the vacancy requires no more experience than the
requested level; `moreThan6` accepts everything. -/
def matches_experience_level (req : BulkApplyRequest) (v : Vacancy) : Bool :=
  let ve := (v.experience.bind IdName.id).getD ""
  if ve = "" then true
  else if some ve = req.experience_level then true
  else if req.experience_level = some "noExperience" then decide (ve = "noExperience")
  else if req.experience_level = some "between1And3" then
    ["noExperience", "between1And3"].contains ve
  else if req.experience_level = some "between3And6" then
    ["noExperience", "between1And3", "between3And6"].contains ve
  else if req.experience_level = some "moreThan6" then true
  else false

/-- `ApplicationFilter._check_required_skills` (`filters.py`, lines 130-149):
a required skill is missing when its lowercase form is neither an exact entry
of the lowercased `key_skills[].name` list nor a substring of the lowercased
`description`.  The vacancy `name` is not consulted. -/
def check_required_skills (req : BulkApplyRequest) (v : Vacancy) : List String :=
  match req.required_skills with
  | none => []
  | some rs =>
      if rs.isEmpty then []
      else
        let description := pyLower (v.description.getD "")
        let key_skills := v.key_skills.map (fun sk => pyLower (sk.name.getD ""))
        rs.filter (fun s =>
          let sl := pyLower s
          !(key_skills.contains sl) && !(strContains description sl))

/-- `ApplicationFilter._check_excluded_keywords` (`filters.py`, lines
151-169): keywords found as lowercase substrings of `description` or `name`. -/
def check_excluded_keywords (req : BulkApplyRequest) (v : Vacancy) : List String :=
  match req.excluded_keywords with
  | none => []
  | some ks =>
      if ks.isEmpty then []
      else
        let description := pyLower (v.description.getD "")
        let name := pyLower (v.name.getD "")
        ks.filter (fun k =>
          let kl := pyLower k
          strContains description kl || strContains name kl)

/-- `ApplicationFilter._matches_employment_type` (`filters.py`, lines
171-180). -/
def matches_employment_type (req : BulkApplyRequest) (v : Vacancy) : Bool :=
  if !optListTruthy req.employment_types then true
  else
    let et := (v.employment.bind IdName.id).getD ""
    if et = "" then true
    else (req.employment_types.getD []).contains et

/-- `ApplicationFilter._matches_preferred_schedule` (`filters.py`, lines
182-191). -/
def matches_preferred_schedule (req : BulkApplyRequest) (v : Vacancy) : Bool :=
  if !optListTruthy req.preferred_schedule then true
  else
    let sc := (v.schedule.bind IdName.id).getD ""
    if sc = "" then true
    else (req.preferred_schedule.getD []).contains sc

/-- `ApplicationFilter._within_commute_range` (`filters.py`, lines 193-209):
returns `True` on every path (the address is inspected but never rejects). -/
def within_commute_range (req : BulkApplyRequest) (v : Vacancy) : Bool :=
  if !optIntTruthy req.max_commute_time then true
  else
    match v.address with
    | none => true
    | some _ => true

/-- `ApplicationFilter.should_apply` (`src/app/utils/filters.py`, lines
16-71), check order exactly as in the source: company exclusion, salary,
remote, experience level, required skills, excluded keywords, employment
type, preferred schedule, commute. -/
def should_apply (req : BulkApplyRequest) (v : Vacancy) : Bool × String :=
  let companyHit : Option String :=
    if optListTruthy req.exclude_companies then
      let employer_name := pyLower ((v.employer.bind Employer.name).getD "")
      ((req.exclude_companies.getD []).find?
        (fun ex => strContains employer_name (pyLower ex))).map
        (fun _ => employer_name)
    else none
  match companyHit with
  | some employer_name => (false, "Excluded company: " ++ employer_name)
  | none =>
    if optIntTruthy req.salary_min && !meets_salary_requirement req v then
      (false, "Salary below minimum requirement")
    else if optBoolTruthy req.remote_only && !is_remote_position v then
      (false, "Not a remote position")
    else if optStrTruthy req.experience_level && !matches_experience_level req v then
      (false, "Experience level mismatch")
    else
      let missing := if optListTruthy req.required_skills then check_required_skills req v else []
      if !missing.isEmpty then
        (false, "Missing required skills: " ++ String.intercalate ", " missing)
      else
        let found := if optListTruthy req.excluded_keywords then check_excluded_keywords req v else []
        if !found.isEmpty then
          (false, "Found excluded keywords: " ++ String.intercalate ", " found)
        else if optListTruthy req.employment_types && !matches_employment_type req v then
          (false, "Employment type mismatch")
        else if optListTruthy req.preferred_schedule && !matches_preferred_schedule req v then
          (false, "Schedule mismatch")
        else if optIntTruthy req.max_commute_time && !within_commute_range req v then
          (false, "Commute time exceeds maximum")
        else (true, "Passed all filters")

/-- Hierarchy rank of the board's experience levels. -/
def expRank (s : String) : Option Nat :=
  if s = "noExperience" then some 0
  else if s = "between1And3" then some 1
  else if s = "between3And6" then some 2
  else if s = "moreThan6" then some 3
  else none

/-- Amended-claim acceptance for the experience check: empty vacancy level,
exact match, `moreThan6` requested (accepts anything), or both levels known
with the vacancy's rank at most the requested rank. -/
def expAccepts (re ve : String) : Bool :=
  ve = "" || ve = re || re = "moreThan6" ||
    (match expRank re, expRank ve with
      | some r, some k => decide (k ≤ r)
      | _, _ => false)

/-- Amended-claim test: a required skill "appears" when its lowercase form
is an exact entry of the lowercased `key_skills[].name` list or a substring
of the lowercased `description`. -/
def skillAppears (v : Vacancy) (s : String) : Bool :=
  let sl := pyLower s
  (v.key_skills.map (fun k => pyLower (k.name.getD ""))).contains sl ||
    strContains (pyLower (v.description.getD "")) sl

/-- Amended-claim salary rejection: a salary object is present and its
`from` field is missing, zero, or below `salary_min`. -/
def salaryTooLow (req : BulkApplyRequest) (v : Vacancy) : Bool :=
  v.salary.isSome &&
    (match v.salary.bind Salary.salary_from with
      | some f => decide (f = 0) || decide (f < req.salary_min.getD 0)
      | none => true)

/-- The Filter Engine as the amended claim words it: checks in order are
company exclusion, salary, remote, experience level, required skills
(key-skill entries and description only — never the vacancy name), excluded
keywords, employment type, preferred schedule; the commute check never
rejects and `archived` is never examined, so neither appears here. -/
def should_apply_spec (req : BulkApplyRequest) (v : Vacancy) : Bool × String :=
  let employerLower := pyLower ((v.employer.bind Employer.name).getD "")
  match (req.exclude_companies.getD []).find?
      (fun ex => strContains employerLower (pyLower ex)) with
  | some _ => (false, "Excluded company: " ++ employerLower)
  | none =>
    if decide (req.salary_min.getD 0 ≠ 0) && salaryTooLow req v then
      (false, "Salary below minimum requirement")
    else if decide (req.remote_only = some true) && !is_remote_position v then
      (false, "Not a remote position")
    else if decide (req.experience_level.getD "" ≠ "") &&
        !expAccepts (req.experience_level.getD "")
          ((v.experience.bind IdName.id).getD "") then
      (false, "Experience level mismatch")
    else if (req.required_skills.getD []).any (fun s => !skillAppears v s) then
      (false, "Missing required skills: " ++
        String.intercalate ", "
          ((req.required_skills.getD []).filter (fun s => !skillAppears v s)))
    else if (req.excluded_keywords.getD []).any
        (fun k => strContains (pyLower (v.description.getD "")) (pyLower k) ||
          strContains (pyLower (v.name.getD "")) (pyLower k)) then
      (false, "Found excluded keywords: " ++
        String.intercalate ", "
          ((req.excluded_keywords.getD []).filter
            (fun k => strContains (pyLower (v.description.getD "")) (pyLower k) ||
              strContains (pyLower (v.name.getD "")) (pyLower k))))
    else if optListTruthy req.employment_types &&
        (decide ((v.employment.bind IdName.id).getD "" ≠ "") &&
          !((req.employment_types.getD []).contains
            ((v.employment.bind IdName.id).getD ""))) then
      (false, "Employment type mismatch")
    else if optListTruthy req.preferred_schedule &&
        (decide ((v.schedule.bind IdName.id).getD "" ≠ "") &&
          !((req.preferred_schedule.getD []).contains
            ((v.schedule.bind IdName.id).getD ""))) then
      (false, "Schedule mismatch")
    else (true, "Passed all filters")

lemma optIntTruthy_eq_decide (o : Option Int) :
    optIntTruthy o = decide (o.getD 0 ≠ 0) := by
  cases o with
  | none => simp [optIntTruthy]
  | some m => simp [optIntTruthy]

lemma optStrTruthy_eq_decide (o : Option String) :
    optStrTruthy o = decide (o.getD "" ≠ "") := by
  cases o with
  | none => simp [optStrTruthy]
  | some s => simp [optStrTruthy]

lemma optBoolTruthy_eq_decide (o : Option Bool) :
    optBoolTruthy o = decide (o = some true) := by
  cases o with
  | none => simp [optBoolTruthy]
  | some b => cases b <;> simp [optBoolTruthy]

lemma salary_bool_identity (m sf : Int) :
    (!decide (sf = 0) && decide (m ≤ sf)) = !(decide (sf = 0) || decide (sf < m)) := by
  by_cases h0 : sf = 0 <;> by_cases h1 : m ≤ sf <;> simp [h0, h1] <;> omega

lemma not_meets_salary_eq_tooLow (req : BulkApplyRequest) (v : Vacancy) :
    (!meets_salary_requirement req v) = salaryTooLow req v := by
  unfold meets_salary_requirement salaryTooLow
  cases hs : v.salary with
  | none => simp
  | some s =>
      cases hf : s.salary_from with
      | none => simp [hf]
      | some sf => simp [hf, salary_bool_identity]

lemma matches_exp_eq_expAccepts (req : BulkApplyRequest) (v : Vacancy) (re : String)
    (h : req.experience_level = some re) :
    matches_experience_level req v =
      expAccepts re ((v.experience.bind IdName.id).getD "") := by
  unfold matches_experience_level expAccepts
  generalize (v.experience.bind IdName.id).getD "" = ve
  by_cases h0 : ve = ""
  · simp [h0]
  by_cases h1 : ve = re
  · simp [h0, h1, h]
  by_cases hr1 : re = "noExperience" <;> by_cases hr2 : re = "between1And3" <;>
    by_cases hr3 : re = "between3And6" <;> by_cases hr4 : re = "moreThan6" <;>
    by_cases hv1 : ve = "noExperience" <;> by_cases hv2 : ve = "between1And3" <;>
    by_cases hv3 : ve = "between3And6" <;> by_cases hv4 : ve = "moreThan6" <;>
    simp_all [expRank]

lemma optListTruthy_none {α : Type} : optListTruthy (none : Option (List α)) = false := rfl

lemma optListTruthy_some {α : Type} (l : List α) : optListTruthy (some l) = !l.isEmpty := rfl

lemma exp_cond_eq (req : BulkApplyRequest) (v : Vacancy) :
    (optStrTruthy req.experience_level && !matches_experience_level req v) =
      (decide (req.experience_level.getD "" ≠ "") &&
        !expAccepts (req.experience_level.getD "")
          ((v.experience.bind IdName.id).getD "")) := by
  cases h : req.experience_level with
  | none => simp [optStrTruthy]
  | some re =>
      by_cases hre : re = ""
      · simp [optStrTruthy, h, hre]
      · have hm := matches_exp_eq_expAccepts req v re h
        simp [optStrTruthy, h, hre, hm]

lemma not_isEmpty_filter_eq_any (l : List α) (p : α → Bool) :
    (!(l.filter p).isEmpty) = l.any p := by
  induction l with
  | nil => rfl
  | cons a as ih => by_cases h : p a = true <;> simp [h, ih]

lemma required_missing_eq (req : BulkApplyRequest) (v : Vacancy) :
    (if optListTruthy req.required_skills then check_required_skills req v else []) =
      (req.required_skills.getD []).filter (fun s => !skillAppears v s) := by
  cases h : req.required_skills with
  | none => simp [optListTruthy]
  | some rs =>
      cases rs with
      | nil => simp [optListTruthy]
      | cons a as =>
          simp only [optListTruthy, List.isEmpty_cons, Bool.not_false, if_true,
            Option.getD_some]
          unfold check_required_skills
          simp only [h, List.isEmpty_cons, Bool.false_eq_true, if_false]
          apply List.filter_congr
          intro s _
          unfold skillAppears
          simp [Bool.not_or]

lemma excluded_found_eq (req : BulkApplyRequest) (v : Vacancy) :
    (if optListTruthy req.excluded_keywords then check_excluded_keywords req v else []) =
      (req.excluded_keywords.getD []).filter
        (fun k => strContains (pyLower (v.description.getD "")) (pyLower k) ||
          strContains (pyLower (v.name.getD "")) (pyLower k)) := by
  cases h : req.excluded_keywords with
  | none => simp [optListTruthy]
  | some ks =>
      cases ks with
      | nil => simp [optListTruthy]
      | cons a as =>
          simp only [optListTruthy, List.isEmpty_cons, Bool.not_false, if_true,
            Option.getD_some]
          unfold check_excluded_keywords
          simp [h]

lemma employment_cond_eq (req : BulkApplyRequest) (v : Vacancy) :
    (optListTruthy req.employment_types && !matches_employment_type req v) =
      (optListTruthy req.employment_types &&
        (decide ((v.employment.bind IdName.id).getD "" ≠ "") &&
          !((req.employment_types.getD []).contains
            ((v.employment.bind IdName.id).getD "")))) := by
  unfold matches_employment_type
  cases ht : optListTruthy req.employment_types
  · simp
  · by_cases he : (v.employment.bind IdName.id).getD "" = "" <;> simp [he]

lemma schedule_cond_eq (req : BulkApplyRequest) (v : Vacancy) :
    (optListTruthy req.preferred_schedule && !matches_preferred_schedule req v) =
      (optListTruthy req.preferred_schedule &&
        (decide ((v.schedule.bind IdName.id).getD "" ≠ "") &&
          !((req.preferred_schedule.getD []).contains
            ((v.schedule.bind IdName.id).getD "")))) := by
  unfold matches_preferred_schedule
  cases ht : optListTruthy req.preferred_schedule
  · simp
  · by_cases he : (v.schedule.bind IdName.id).getD "" = "" <;> simp [he]

lemma within_commute_range_true (req : BulkApplyRequest) (v : Vacancy) :
    within_commute_range req v = true := by
  unfold within_commute_range
  by_cases h : (!optIntTruthy req.max_commute_time) = true
  · simp [h]
  · simp only [h, if_false]
    cases v.address <;> rfl

lemma commute_cond_false (req : BulkApplyRequest) (v : Vacancy) :
    (optIntTruthy req.max_commute_time && !within_commute_range req v) = false := by
  simp [within_commute_range_true]

/-- C2: the claim describes `should_apply` as: (1) archived → reject;
(2) excluded company substring → reject; (3) required skills must appear in
`key_skills ∪ description ∪ name`; (4) excluded keywords; with salary,
schedule, experience and employment *not* checked.  False on two counts at
concrete inputs: an archived vacancy passes `should_apply` when no criteria
are set (the engine never reads `archived`), and a request with only
`salary_min = 100000` rejects a vacancy offering `salary.from = 50000`
(so salary *is* checked by `should_apply`). -/
theorem C2_counterexample :
    should_apply
        { position := "Developer", resume_id := "r1" }
        { archived := some true } = (true, "Passed all filters") ∧
      should_apply
        { position := "Developer", resume_id := "r1", salary_min := some 100000 }
        { salary := some { salary_from := some 50000 } } =
        (false, "Salary below minimum requirement") := by
  constructor
  · rfl
  · rfl

/-- C2 (amended): `should_apply` never examines `archived` (first conjunct:
the result is invariant under any change to the `archived` field), and it is
exactly the check chain of `should_apply_spec`: excluded company, salary
minimum, remote-only, experience level, required skills (matched against the
`key_skills` entries and the `description` only — never the vacancy `name`),
excluded keywords (in `description` or `name`), employment type, preferred
schedule; the commute check never rejects.  Salary, schedule, experience and
employment *are* therefore checked here as well as upstream. -/
theorem C2_should_apply_characterized (req : BulkApplyRequest) (v : Vacancy)
    (a : Option Bool) :
    should_apply req { v with archived := a } = should_apply req v ∧
      should_apply req v = should_apply_spec req v := by
  constructor
  · rfl
  · unfold should_apply should_apply_spec
    cases hec : req.exclude_companies with
    | none =>
        simp only [hec, optListTruthy_none, Option.getD_none, List.find?_nil,
          Bool.false_eq_true, if_false]
        simp only [optIntTruthy_eq_decide, not_meets_salary_eq_tooLow,
          optBoolTruthy_eq_decide, exp_cond_eq, required_missing_eq,
          not_isEmpty_filter_eq_any, excluded_found_eq, employment_cond_eq,
          schedule_cond_eq, within_commute_range_true, Bool.not_true,
          Bool.and_false, Bool.false_eq_true, if_false]
    | some l =>
        cases l with
        | nil =>
            simp only [hec, optListTruthy_some, List.isEmpty_nil, Bool.not_true,
              Option.getD_some, List.find?_nil, Bool.false_eq_true, if_false]
            simp only [optIntTruthy_eq_decide, not_meets_salary_eq_tooLow,
              optBoolTruthy_eq_decide, exp_cond_eq, required_missing_eq,
              not_isEmpty_filter_eq_any, excluded_found_eq, employment_cond_eq,
              schedule_cond_eq, within_commute_range_true, Bool.not_true,
              Bool.and_false, Bool.false_eq_true, if_false]
        | cons x xs =>
            simp only [hec, optListTruthy_some, List.isEmpty_cons, Bool.not_false,
              if_true, Option.getD_some]
            cases hf : (x :: xs).find?
                (fun ex =>
                  strContains (pyLower ((v.employer.bind Employer.name).getD ""))
                    (pyLower ex)) with
            | some e => simp only [hf, Option.map_some']
            | none =>
                simp only [hf, Option.map_none']
                simp only [optIntTruthy_eq_decide, not_meets_salary_eq_tooLow,
                  optBoolTruthy_eq_decide, exp_cond_eq, required_missing_eq,
                  not_isEmpty_filter_eq_any, excluded_found_eq, employment_cond_eq,
                  schedule_cond_eq, within_commute_range_true, Bool.not_true,
                  Bool.and_false, Bool.false_eq_true, if_false]

/-! ### C5 — External Board Client request dispatch
(`src/app/services/hh_client.py`, `HHClient._make_request`, lines 99-259).
The HTTP layer is the environment: attempt `k` (0-based) of the same request
is answered by `env k`.  Sleeps and jitter do not affect control flow and are
omitted; the unbounded `while True` loop is given explicit fuel (the 429
branch of the source retries without any bound, so the Python loop itself
need not terminate). -/

/-- One HTTP response as `_make_request` inspects it. -/
structure HTTPResponse where
  status : Nat
  body_has_ddos_marker : Bool := false
  body_has_browser_check : Bool := false
  retry_after : Nat := 60
  body_empty : Bool := false
  json_ok : Bool := true
  decoded_body : String := ""

/-- Outcome of one send: a response, or one of the caught network errors
(`httpx.ConnectError/ReadTimeout/WriteTimeout/PoolTimeout`). -/
inductive AttemptOutcome where
  | resp (r : HTTPResponse)
  | network

/-- Value returned by `_make_request` on success: parsed JSON, or the
synthetic `{"status": "success", "status_code": ...}` dict for empty or
non-JSON 200/201/204 bodies. -/
inductive HHValue where
  | json (decoded : String)
  | successDict (status_code : Nat)
deriving DecidableEq

/-- `HHAPIError(status_code, message)`. -/
inductive HHErr where
  | api (status_code : Nat) (message : String)
deriving DecidableEq

/-- The `while True` body of `_make_request` (lines 116-259).  Returns the
result (`none` when fuel runs out) paired with the number of sends
performed. -/
def make_request_go (env : Nat → AttemptOutcome) (max_retries : Nat) :
    Nat → Nat → Nat → Option (Except HHErr HHValue) × Nat
  | 0, _, sends => (none, sends)
  | fuel + 1, retries, sends =>
    match env sends with
    | .network =>
        -- lines 244-259: caught network error kinds
        if retries + 1 > max_retries then
          (some (.error (.api 503 "Network error")), sends + 1)
        else make_request_go env max_retries fuel (retries + 1) (sends + 1)
    | .resp r =>
        -- lines 120-149: DDoS-guard page, browser check, or any 403
        if r.body_has_ddos_marker ∨ r.body_has_browser_check ∨ r.status = 403 then
          if retries + 1 > max_retries then
            (some (.error (.api 429
              "Request blocked by DDoS protection. Please try again later.")),
              sends + 1)
          else make_request_go env max_retries fuel (retries + 1) (sends + 1)
        -- lines 151-155: 429 sleeps Retry-After and retries without bound
        else if r.status = 429 then
          make_request_go env max_retries fuel retries (sends + 1)
        -- lines 157-174: gateway errors
        else if r.status = 502 ∨ r.status = 503 ∨ r.status = 504 then
          if retries + 1 > max_retries then
            (some (.error (.api r.status
              ("Gateway error after " ++ toString max_retries ++ " retries"))),
              sends + 1)
          else make_request_go env max_retries fuel (retries + 1) (sends + 1)
        -- line 176: `raise_for_status` throws `HTTPStatusError` for 4xx/5xx,
        -- handled at lines 201-242
        else if r.status ≥ 400 then
          if r.status < 500 ∧
              ¬(r.status = 429 ∨ r.status = 408 ∨ r.status = 502 ∨
                r.status = 503 ∨ r.status = 504) then
            (some (.error (.api r.status r.decoded_body)), sends + 1)
          else if retries + 1 > max_retries then
            (some (.error (.api r.status r.decoded_body)), sends + 1)
          else make_request_go env max_retries fuel (retries + 1) (sends + 1)
        -- lines 178-199: success-body handling
        else if r.body_empty then
          (some (.ok (.successDict r.status)), sends + 1)
        else if r.json_ok then
          (some (.ok (.json r.decoded_body)), sends + 1)
        else if r.status = 200 ∨ r.status = 201 ∨ r.status = 204 then
          (some (.ok (.successDict r.status)), sends + 1)
        else
          (some (.error (.api 500 "Invalid JSON response")), sends + 1)

/-- `HHClient._make_request` with `max_retries = 3` (its default). -/
def make_request (env : Nat → AttemptOutcome) (fuel : Nat)
    (max_retries : Nat := 3) : Option (Except HHErr HHValue) × Nat :=
  make_request_go env max_retries fuel 0 0

/-- C5: the claim says every 4xx status other than 429 and 408 (with a
non-DDoS body) is never retried and raises immediately with the decoded
body.  False for 403: a plain 403 response (no DDoS-guard body) is treated
as DDoS-blocked, re-sent three times (4 sends in total), and then raised as
`HHAPIError(429, "Request blocked by DDoS protection...")` — not as an
immediate `HHAPIError(403, decoded body)`. -/
theorem C5_counterexample :
    make_request (fun _ => .resp { status := 403, decoded_body := "forbidden" }) 10 3 =
      (some (.error (.api 429
        "Request blocked by DDoS protection. Please try again later.")), 4) := by
  rfl

/-- C5 (amended): for a response whose status is in [400, 500) and not one
of 403, 408, 429, with a body that is neither a DDoS-guard page nor a
browser-check page, `_make_request` raises `HHAPIError` carrying that status
and the decoded body immediately: exactly one send, zero re-sends. -/
theorem C5_no_retry_client_error (env : Nat → AttemptOutcome) (fuel : Nat)
    (r : HTTPResponse) (henv : env 0 = .resp r) (hfuel : 1 ≤ fuel)
    (h400 : 400 ≤ r.status) (h500 : r.status < 500)
    (h403 : r.status ≠ 403) (h408 : r.status ≠ 408) (h429 : r.status ≠ 429)
    (hddos : r.body_has_ddos_marker = false)
    (hbrowser : r.body_has_browser_check = false) :
    make_request env fuel 3 = (some (.error (.api r.status r.decoded_body)), 1) := by
  obtain ⟨fuel', rfl⟩ : ∃ k, fuel = k + 1 := ⟨fuel - 1, by omega⟩
  unfold make_request make_request_go
  rw [henv]
  simp only [hddos, hbrowser]
  have h502 : r.status ≠ 502 := by omega
  have h503 : r.status ≠ 503 := by omega
  have h504 : r.status ≠ 504 := by omega
  simp [h403, h429, h502, h503, h504, h408, h400, h500]

/-- Witness for `C5_no_retry_client_error`: a 404 with decoded body
`"not found"` raises immediately after a single send. -/
theorem C5_no_retry_client_error_witness :
    make_request (fun _ => .resp { status := 404, decoded_body := "not found" }) 5 3 =
      (some (.error (.api 404 "not found")), 1) :=
  C5_no_retry_client_error
    (fun _ => .resp { status := 404, decoded_body := "not found" }) 5
    { status := 404, decoded_body := "not found" }
    rfl (by decide) (by decide) (by decide) (by decide) (by decide) (by decide)
    rfl rfl

/-! ### C6 — paging of already-applied vacancies
(`src/app/services/hh_client.py`, `HHClient.get_applied_vacancy_ids`, lines
443-485).  Each iteration issues `GET /negotiations?page=p&per_page=100`
through `_make_request`; the environment answers request `(p, per_page)`.
`_ensure_token` (lines 76-97) may raise `HTTPException(401)` inside any
request — that exception is *not* `HHAPIError` and is not caught by the
`except HHAPIError` handler of `get_applied_vacancy_ids`. -/

/-- `item["vacancy"]` of a `/negotiations` item. -/
structure NegVacancy where
  id : Option String := none

/-- One item of a `/negotiations` page. -/
structure NegItem where
  vacancy : Option NegVacancy := none

/-- One `/negotiations` response page. -/
structure NegPage where
  items : List NegItem := []
  pages : Option Nat := none

/-- Outcome of one paged request: a page, an `HHAPIError` (caught), or an
authentication `HTTPException` from `_ensure_token` (uncaught). -/
inductive NegReqOutcome where
  | ok (page : NegPage)
  | apiError
  | authError

/-- Result of the `while True` paging loop. -/
inductive NegLoopOut where
  | done (ids : List String)
  | apiErr
  | authErr
deriving DecidableEq

/-- Python `set.add` on an insertion-ordered list model of a set. -/
def setInsert (a : List String) (vid : String) : List String :=
  if a.contains vid then a else a ++ [vid]

/-- The `vacancy_id` values of one page, in iteration order
(lines 461-465: `item.get("vacancy", {}).get("id")`, kept when truthy). -/
def pageVacancyIds (p : NegPage) : List String :=
  p.items.filterMap (fun it =>
    match it.vacancy with
    | some vc =>
        match vc.id with
        | some vid => if vid ≠ "" then some vid else none
        | none => none
    | none => none)

/-- The paging loop of `get_applied_vacancy_ids` (lines 450-476): fetch page
`page`; stop on an empty item list; collect ids; stop when
`page ≥ pages − 1`; increment; stop when `page ≥ 20`.  The loop performs at
most 20 requests, so fuel 20 is exact. -/
def get_applied_go (env : Nat → Nat → NegReqOutcome) :
    Nat → Nat → List String → NegLoopOut
  | 0, _, acc => .done acc
  | fuel + 1, page, acc =>
    match env page 100 with
    | .apiError => .apiErr
    | .authError => .authErr
    | .ok resp =>
        if resp.items.isEmpty then .done acc
        else
          let acc' := (pageVacancyIds resp).foldl setInsert acc
          if page ≥ resp.pages.getD 1 - 1 then .done acc'
          else if page + 1 ≥ 20 then .done acc'
          else get_applied_go env fuel (page + 1) acc'

/-- `HHClient.get_applied_vacancy_ids` (lines 443-485): runs the paging loop
from page 0; an `HHAPIError` anywhere yields the empty set (fail open, lines
483-485); an authentication `HTTPException` propagates (`Except.error ()`). -/
def get_applied_vacancy_ids (env : Nat → Nat → NegReqOutcome) :
    Except Unit (List String) :=
  match get_applied_go env 20 0 [] with
  | .done ids => .ok ids
  | .apiErr => .ok []
  | .authErr => .error ()

/-- C6: the claim says that on *any* error during the paging process the
function returns the empty set rather than raising.  False: when the token
store has no valid token, `_ensure_token` raises `HTTPException(401)` on the
very first request, which is not an `HHAPIError` and therefore propagates
out of `get_applied_vacancy_ids`. -/
theorem C6_counterexample :
    get_applied_vacancy_ids (fun _ _ => .authError) = .error () := by
  rfl

lemma get_applied_go_no_auth (env : Nat → Nat → NegReqOutcome)
    (hnoauth : ∀ p, env p 100 ≠ .authError) :
    ∀ fuel page acc, get_applied_go env fuel page acc ≠ .authErr := by
  intro fuel
  induction fuel with
  | zero =>
      intro page acc
      simp [get_applied_go]
  | succ n ih =>
      intro page acc
      unfold get_applied_go
      cases h : env page 100 with
      | apiError => simp
      | authError => exact absurd h (hnoauth page)
      | ok resp =>
          by_cases hi : resp.items.isEmpty = true
          · simp [hi]
          · simp only [hi, Bool.false_eq_true, if_false]
            by_cases h1 : page ≥ resp.pages.getD 1 - 1
            · simp [h1]
            · by_cases h2 : page + 1 ≥ 20 <;> simp [h1, h2, ih]

/-- Single-id `/negotiations` page `p` of a board claiming `pages` total
pages; the vacancy id is `"v" ++ toString p`. -/
def negPageFor (p : Nat) (pages : Nat) : NegPage :=
  { items := [{ vacancy := some { id := some ("v" ++ toString p) } }],
    pages := some pages }

/-- Environment whose board reports 3 pages and fails on any further page
request (so the theorem below also certifies pages ≥ 3 are never fetched). -/
def envStop3 : Nat → Nat → NegReqOutcome :=
  fun p _ => if p < 3 then .ok (negPageFor p 3) else .apiError

/-- Environment whose board reports 1000 pages, to exercise the hard cap. -/
def envManyPages : Nat → Nat → NegReqOutcome :=
  fun p _ => .ok (negPageFor p 1000)

/-- C6 (amended): `get_applied_vacancy_ids` pages through `/negotiations`
with `per_page=100` and on any `HHAPIError` returns the empty set rather
than raising — but an authentication `HTTPException` from `_ensure_token`
propagates.  In particular: (i) when no request raises the auth exception
the function always returns a set; (ii) an `HHAPIError` on the first page
yields the empty set; (iii) a 3-page board yields exactly the ids of pages
0-2 and pages ≥ 3 are never requested; (iv) a 1000-page board is cut off at
the 20-page cap, yielding exactly the ids of pages 0-19. -/
theorem C6_applied_ids_paging (env : Nat → Nat → NegReqOutcome)
    (hnoauth : ∀ p, env p 100 ≠ .authError) :
    (∃ ids, get_applied_vacancy_ids env = .ok ids) ∧
      (env 0 100 = .apiError → get_applied_vacancy_ids env = .ok []) ∧
      get_applied_vacancy_ids envStop3 = .ok ["v0", "v1", "v2"] ∧
      get_applied_vacancy_ids envManyPages =
        .ok ["v0", "v1", "v2", "v3", "v4", "v5", "v6", "v7", "v8", "v9",
          "v10", "v11", "v12", "v13", "v14", "v15", "v16", "v17", "v18", "v19"] := by
  refine ⟨?_, ?_, by rfl, by rfl⟩
  · unfold get_applied_vacancy_ids
    cases h : get_applied_go env 20 0 [] with
    | done ids => exact ⟨ids, rfl⟩
    | apiErr => exact ⟨[], rfl⟩
    | authErr => exact absurd h (get_applied_go_no_auth env hnoauth 20 0 [])
  · intro h0
    unfold get_applied_vacancy_ids get_applied_go
    rw [h0]

/-- Witness for `C6_applied_ids_paging` at the concrete capped environment. -/
theorem C6_applied_ids_paging_witness :
    (∃ ids, get_applied_vacancy_ids envManyPages = .ok ids) ∧
      (envManyPages 0 100 = .apiError → get_applied_vacancy_ids envManyPages = .ok []) ∧
      get_applied_vacancy_ids envStop3 = .ok ["v0", "v1", "v2"] ∧
      get_applied_vacancy_ids envManyPages =
        .ok ["v0", "v1", "v2", "v3", "v4", "v5", "v6", "v7", "v8", "v9",
          "v10", "v11", "v12", "v13", "v14", "v15", "v16", "v17", "v18", "v19"] :=
  C6_applied_ids_paging envManyPages (fun p => by simp [envManyPages])

/-! ### C7 — single-vacancy application
(`src/app/services/application_service.py`, `apply_to_single_vacancy`, lines
38-144; `_record_application`, lines 931-948; `_can_apply_to_vacancy`, lines
852-885; `_has_external_test`, lines 887-916;
`src/app/utils/validators.py`, `validate_application_request`, lines 23-60).
External calls (vacancy fetch, LLM content, submission) are the environment;
the database is an explicit list of rows. -/

/-- `ApplyResponse` (`src/app/schemas/apply.py`, lines 48-56); the
`hh_response` payload is kept as an opaque decoded string. -/
structure ApplyResponse where
  vacancy_id : String
  status : String
  vacancy_title : Option String := none
  cover_letter : Option String := none
  hh_response : Option String := none
  error_detail : Option String := none
deriving DecidableEq

/-- `ValidationResult` (`src/app/utils/validators.py`, lines 11-20). -/
structure ValidationResult where
  is_valid : Bool
  error : Option String := none
  warnings : List String := []
deriving DecidableEq

/-- `validate_application_request` (`validators.py`, lines 23-60): quality
warnings, a required non-blank `resume_id`, and rejection of template
indicator phrases found in the combined lowercased resume/skills/experience
text. -/
def validate_application_request (request : BulkApplyRequest) : ValidationResult :=
  let warnings :=
    (if optStrTruthy request.resume ∧ (pyStrip (request.resume.getD "")).length < 100
      then ["Resume content is very short"] else []) ++
    (if optStrTruthy request.skills ∧ (pyStrip (request.skills.getD "")).length < 20
      then ["Skills description is very brief"] else []) ++
    (if optStrTruthy request.experience ∧ (pyStrip (request.experience.getD "")).length < 50
      then ["Experience description is quite short"] else [])
  if request.resume_id = "" ∨ pyStrip request.resume_id = "" then
    { is_valid := false,
      error := some "Resume ID is required for application submission" }
  else
    let content_to_check := pyLower
      (request.resume.getD "" ++ " " ++ request.skills.getD "" ++ " " ++
        request.experience.getD "")
    match ["lorem ipsum", "sample text", "template"].find?
        (fun ind => strContains content_to_check ind) with
    | some ind =>
        { is_valid := false, error := some ("Template content detected: " ++ ind) }
    | none => { is_valid := true, warnings := warnings }

/-- `ApplicationHistory` row (`src/app/models/application.py`);
`applied_at_tz_aware` records whether the stored datetime kept a timezone —
`_record_application` stores `datetime.now(UTC).replace(tzinfo=None)`, i.e.
UTC-naive, so it writes `false`. -/
structure ApplicationHistory where
  vacancy_id : String
  resume_id : String
  user_id : Option String := none
  applied_at : Nat
  applied_at_tz_aware : Bool
  hh_response : Option String := none
deriving DecidableEq

/-- Number of history rows for one `(vacancy_id, resume_id)` pair. -/
def history_count (db : List ApplicationHistory) (vid rid : String) : Nat :=
  (db.filter (fun r => decide (r.vacancy_id = vid) && decide (r.resume_id = rid))).length

/-- Result of `_has_already_applied` (lines 918-929): SQLAlchemy
`scalar_one_or_none` yields the row, `None`, or raises
`MultipleResultsFound` (a `SQLAlchemyError`) when several rows match. -/
inductive HasAppliedResult where
  | yes
  | no
  | dbError
deriving DecidableEq

/-- `_has_already_applied` over the explicit row list. -/
def has_already_applied (db : List ApplicationHistory) (vid rid : String) :
    HasAppliedResult :=
  match history_count db vid rid with
  | 0 => .no
  | 1 => .yes
  | _ => .dbError

/-- Exception kinds caught by `apply_to_single_vacancy` (lines 101-144). -/
inductive FetchExn where
  | httpExc (status : Nat) (detail : String)
  | networkExc (msg : String)
  | valueExc (msg : String)
  | dbExc (msg : String)
deriving DecidableEq

/-- Result of `_generate_application_content` (lines 692-743). -/
structure ApplicationContent where
  cover_letter : Option String := none
  answers : Option (List (String × String)) := none
deriving DecidableEq

/-- External-world outcomes for one `apply_to_single_vacancy` call. -/
structure SingleEnv where
  vacancy_fetch : Except FetchExn Vacancy
  content : Except FetchExn ApplicationContent
  submit : Except FetchExn String
  record_ok : Bool
  now : Nat

/-- The except-handler mapping of `apply_to_single_vacancy` (lines 101-144):
a 403 whose detail mentions "test" becomes a skip; other exceptions become
error responses with their kind-specific detail. -/
def exn_response (vacancy_id : String) (title : Option String) :
    FetchExn → ApplyResponse
  | .httpExc status detail =>
      if status = 403 ∧ strContains (pyLower detail) "test" then
        { vacancy_id, status := "skipped", vacancy_title := title,
          error_detail := some "Vacancy requires mandatory test" }
      else
        { vacancy_id, status := "error", vacancy_title := title,
          error_detail := some ("HTTP " ++ toString status ++ ": " ++ detail) }
  | .networkExc msg =>
      { vacancy_id, status := "error", vacancy_title := title,
        error_detail := some ("Network error: " ++ msg) }
  | .valueExc msg =>
      { vacancy_id, status := "error", vacancy_title := title,
        error_detail := some msg }
  | .dbExc _ =>
      { vacancy_id, status := "error", vacancy_title := title,
        error_detail := some "Database error" }

/-- `_has_external_test` (lines 887-916): a `test` object whose
`url or href` points outside `https://hh.ru`, or a required test, or a
branded template with an external form URL. -/
def has_external_test (v : Vacancy) : Bool :=
  (match v.test with
    | some t =>
        let test_url :=
          match t.url with
          | some u => if u ≠ "" then u else t.href.getD ""
          | none => t.href.getD ""
        if test_url ≠ "" ∧ ¬(test_url.startsWith "https://hh.ru") then true
        else t.required.getD false
    | none => false) ||
  (match v.branded_template with
    | some b => optStrTruthy b.external_form_url
    | none => false)

/-- `_can_apply_to_vacancy` (lines 852-885): archived, relations containing
`got_response`/`response`, cover letter required but disabled, external
test. -/
def can_apply_to_vacancy (v : Vacancy) (use_cover_letter : Bool) : Bool × String :=
  if v.archived.getD false then (false, "Vacancy is archived")
  else if v.relations.contains "got_response" || v.relations.contains "response" then
    (false, "Already applied to this vacancy")
  else if v.response_letter_required.getD false && !use_cover_letter then
    (false, "Vacancy requires cover letter (enable AI assistant)")
  else if has_external_test v then
    (false, "Vacancy requires external test (cannot be answered via API)")
  else (true, "")

/-- `ApplicationService.apply_to_single_vacancy` (lines 38-144) as a state
transition on the `ApplicationHistory` table: validation, duplicate check,
vacancy fetch, eligibility, content generation, submission, bookkeeping;
every caught exception becomes an `ApplyResponse` value. -/
def apply_to_single_vacancy (vacancy_id : String) (request : BulkApplyRequest)
    (user_id : Option String) (use_cover_letter : Bool)
    (db : List ApplicationHistory) (env : SingleEnv) :
    ApplyResponse × List ApplicationHistory :=
  let vr := validate_application_request request
  if !vr.is_valid then
    ({ vacancy_id, status := "error",
       error_detail := some ("Invalid request: " ++ vr.error.getD "") }, db)
  else
    match has_already_applied db vacancy_id request.resume_id with
    | .dbError => (exn_response vacancy_id none (.dbExc "multiple results"), db)
    | .yes =>
        ({ vacancy_id, status := "skipped",
           error_detail := some "Already applied to this vacancy" }, db)
    | .no =>
        match env.vacancy_fetch with
        | .error e => (exn_response vacancy_id none e, db)
        | .ok vacancy =>
            let (can, reason) := can_apply_to_vacancy vacancy use_cover_letter
            if !can then
              ({ vacancy_id, status := "skipped", vacancy_title := vacancy.name,
                 error_detail := some reason }, db)
            else
              match env.content with
              | .error e => (exn_response vacancy_id vacancy.name e, db)
              | .ok content =>
                  match env.submit with
                  | .error e => (exn_response vacancy_id vacancy.name e, db)
                  | .ok hh_response =>
                      if env.record_ok then
                        ({ vacancy_id, status := "success",
                           vacancy_title := vacancy.name,
                           cover_letter := content.cover_letter,
                           hh_response := some hh_response },
                          db ++ [{ vacancy_id,
                                   resume_id := request.resume_id,
                                   user_id,
                                   applied_at := env.now,
                                   applied_at_tz_aware := false,
                                   hh_response := some hh_response }])
                      else
                        -- `_record_application` raised `SQLAlchemyError`
                        (exn_response vacancy_id vacancy.name
                          (.dbExc "commit failed"), db)

lemma has_already_applied_no_iff (db : List ApplicationHistory) (vid rid : String) :
    has_already_applied db vid rid = .no ↔ history_count db vid rid = 0 := by
  unfold has_already_applied
  cases h : history_count db vid rid with
  | zero => simp
  | succ n => cases n <;> simp

/-- C7: the claim says that whenever the board accepts the submission (2xx),
exactly one `ApplicationHistory` row exists afterwards and the operation
returns success.  False when the bookkeeping insert fails: with the board
returning 2xx but the commit of `_record_application` raising
`SQLAlchemyError`, the operation returns status `"error"` and zero rows
exist for the pair. -/
theorem C7_counterexample :
    (let env : SingleEnv :=
      { vacancy_fetch := .ok {}, content := .ok {}, submit := .ok "accepted",
        record_ok := false, now := 0 }
    let r := apply_to_single_vacancy "v1"
      { position := "Developer", resume_id := "r1" } none true [] env
    env.submit = .ok "accepted" ∧ r.1.status = "error" ∧
      history_count r.2 "v1" "r1" = 0) := by
  refine ⟨rfl, rfl, rfl⟩

/-- C7 (amended): whenever the submission succeeds (2xx) *and* the
`ApplicationHistory` insert commits, the operation returns status success and
afterwards exactly one history row exists for `(vacancy_id, resume_id)` —
the appended row, whose `applied_at` is stored UTC-naive
(`applied_at_tz_aware = false`). -/
theorem C7_success_records_exactly_one (vacancy_id : String)
    (request : BulkApplyRequest) (user_id : Option String) (ucl : Bool)
    (db : List ApplicationHistory) (env : SingleEnv) (v : Vacancy)
    (content : ApplicationContent) (hh : String)
    (hvalid : (validate_application_request request).is_valid = true)
    (hdup : has_already_applied db vacancy_id request.resume_id = .no)
    (hfetch : env.vacancy_fetch = .ok v)
    (hcan : (can_apply_to_vacancy v ucl).1 = true)
    (hcontent : env.content = .ok content)
    (hsubmit : env.submit = .ok hh)
    (hrecord : env.record_ok = true) :
    (apply_to_single_vacancy vacancy_id request user_id ucl db env).1.status =
        "success" ∧
      history_count (apply_to_single_vacancy vacancy_id request user_id ucl db env).2
        vacancy_id request.resume_id = 1 ∧
      (apply_to_single_vacancy vacancy_id request user_id ucl db env).2 =
        db ++ [{ vacancy_id,
                 resume_id := request.resume_id,
                 user_id,
                 applied_at := env.now,
                 applied_at_tz_aware := false,
                 hh_response := some hh }] := by
  have hdb0 : history_count db vacancy_id request.resume_id = 0 :=
    (has_already_applied_no_iff db vacancy_id request.resume_id).mp hdup
  rcases hca : can_apply_to_vacancy v ucl with ⟨can, reason⟩
  rw [hca] at hcan
  subst hcan
  simp only [apply_to_single_vacancy, hvalid, hdup, hfetch, hcontent, hsubmit,
    hca, hrecord, Bool.not_true, Bool.false_eq_true, if_false, if_true]
  refine ⟨trivial, ?_, trivial⟩
  unfold history_count at hdb0 ⊢
  rw [List.filter_append, List.length_append, hdb0]
  simp

/-- Witness for `C7_success_records_exactly_one`: a fresh request against an
empty table with every external call succeeding. -/
theorem C7_success_records_exactly_one_witness :
    (apply_to_single_vacancy "v9"
          { position := "Developer", resume_id := "r9" } none true []
          { vacancy_fetch := .ok {}, content := .ok {}, submit := .ok "resp",
            record_ok := true, now := 7 }).1.status = "success" ∧
      history_count
        (apply_to_single_vacancy "v9"
          { position := "Developer", resume_id := "r9" } none true []
          { vacancy_fetch := .ok {}, content := .ok {}, submit := .ok "resp",
            record_ok := true, now := 7 }).2 "v9" "r9" = 1 ∧
      (apply_to_single_vacancy "v9"
          { position := "Developer", resume_id := "r9" } none true []
          { vacancy_fetch := .ok {}, content := .ok {}, submit := .ok "resp",
            record_ok := true, now := 7 }).2 =
        [] ++ [{ vacancy_id := "v9",
                 resume_id := "r9",
                 user_id := none,
                 applied_at := 7,
                 applied_at_tz_aware := false,
                 hh_response := some "resp" }] :=
  C7_success_records_exactly_one "v9"
    { position := "Developer", resume_id := "r9" } none true []
    { vacancy_fetch := .ok {}, content := .ok {}, submit := .ok "resp",
      record_ok := true, now := 7 }
    {} {} "resp" rfl rfl rfl rfl rfl rfl rfl

/-! ### C3 / C4 — streaming bulk-apply pipeline
(`src/app/services/application_service.py`, `bulk_apply_stream`, lines
289-546).  The generator is embedded as a function from an environment (the
outcomes of the baseline fetch, the search, the cancel flag per iteration
and the per-vacancy application outcome) to the list of yielded events plus
an optional uncaught exception.  The adaptive-delay arithmetic (floats) only
feeds `asyncio.sleep` and never influences the emitted events, so it is
omitted. -/

/-- Modelled from the spec: `BulkApplyProgress` is imported from
`app.schemas.apply` but that class is absent from `src/`; spec §4.2 gives
its shape `{event, current, total, success_count, skipped_count,
error_count, result?, message}` with `event ∈ {start, progress, complete,
cancelled, error}`.  Counter fields are optional (the scheduler at
`scheduler_service.py` lines 454-459 checks them against `None`), so the
constructions in `bulk_apply_stream` that omit them leave `none`. -/
structure BulkApplyProgress where
  event : String
  current : Nat
  total : Nat
  success_count : Option Nat := none
  skipped_count : Option Nat := none
  error_count : Option Nat := none
  result : Option ApplyResponse := none
  message : Option String := none
deriving DecidableEq

/-- Exception kinds relevant to the generator's `try/except` (lines
514-546): the three caught kinds, and everything else (for example the
`fastapi.HTTPException` that `search_vacancies` raises at `hh_client.py`
lines 302-306, or an exception escaping the LLM provider), which is not
caught. -/
inductive StreamExn where
  | netErr (msg : String)
  | dbErr (msg : String)
  | valueErr (msg : String)
  | otherExn
deriving DecidableEq

/-- Python `f"{x}"` on an optional string. -/
def pyStr (o : Option String) : String := o.getD "None"

/-- Environment of one `bulk_apply_stream` run: outcome of
`get_applied_vacancy_ids`, outcome of `_search_vacancies_for_bulk`, the
`cancel_check()` value at each loop iteration, and the `ApplyResponse`
produced by `apply_to_single_vacancy` for the `i`-th attempted vacancy
(`Except.error ()` models an exception type that escapes it, which no
`except` clause of the generator catches either). -/
structure StreamEnv where
  applied : Except StreamExn (List String)
  search : Except StreamExn (List Vacancy)
  cancel : Nat → Bool
  apply_result : Nat → Except Unit ApplyResponse

/-- Mutable counters of the generator loop (lines 300-308). -/
structure StreamState where
  current : Nat
  success_count : Nat
  skipped_count : Nat
  error_count : Nat
  consecutive_errors : Nat
deriving DecidableEq

/-- The event of lines 504-512 (`complete` after the loop). -/
def completeEvent (st : StreamState) (total : Nat) : BulkApplyProgress :=
  { event := "complete", current := st.current, total,
    success_count := some st.success_count,
    skipped_count := some st.skipped_count,
    error_count := some st.error_count,
    message := some ("Completed! " ++ toString st.success_count ++
      " applications sent") }

/-- The `for vacancy in vacancies` loop of lines 355-501.  `i` numbers the
iterations for the environment. -/
def stream_loop (req : BulkApplyRequest) (max_applications : Nat)
    (applied_ids : List String) (env : StreamEnv) (total : Nat) :
    List Vacancy → Nat → StreamState →
      List BulkApplyProgress × Option StreamExn
  | [], _, st => ([completeEvent st total], none)
  | v :: rest, i, st =>
    -- lines 356-367: cancellation checkpoint
    if env.cancel i then
      ([{ event := "cancelled", current := st.current, total,
          success_count := some st.success_count,
          skipped_count := some st.skipped_count,
          error_count := some st.error_count,
          message := some "Application cancelled by user" }], none)
    -- lines 369-370: success quota reached
    else if st.success_count ≥ max_applications then
      ([completeEvent st total], none)
    -- lines 372-385: circuit breaker
    else if st.consecutive_errors ≥ 3 then
      ([{ event := "error", current := st.current, total,
          success_count := some st.success_count,
          skipped_count := some st.skipped_count,
          error_count := some st.error_count,
          message := some "Too many consecutive errors, stopping" }], none)
    else
      let vacancy_id := v.id.getD ""
      let vacancy_title := v.name.getD "Unknown"
      let current := st.current + 1
      -- lines 392-410: baseline already-applied set
      if applied_ids.contains vacancy_id then
        let st' := { st with current, skipped_count := st.skipped_count + 1 }
        let result : ApplyResponse :=
          { vacancy_id, status := "skipped", vacancy_title := some vacancy_title,
            error_detail := some "Already applied (HH.ru)" }
        let ev : BulkApplyProgress :=
          { event := "progress", current, total,
            success_count := some st'.success_count,
            skipped_count := some st'.skipped_count,
            error_count := some st'.error_count,
            result := some result,
            message := some ("Skipped: " ++ vacancy_title ++ " (already applied)") }
        let r := stream_loop req max_applications applied_ids env total rest (i + 1) st'
        (ev :: r.1, r.2)
      -- lines 412-434: filter engine
      else if !(should_apply req v).1 then
        let st' := { st with current, skipped_count := st.skipped_count + 1 }
        let result : ApplyResponse :=
          { vacancy_id, status := "skipped", vacancy_title := some vacancy_title,
            error_detail := some ("Filtered: " ++ (should_apply req v).2) }
        let ev : BulkApplyProgress :=
          { event := "progress", current, total,
            success_count := some st'.success_count,
            skipped_count := some st'.skipped_count,
            error_count := some st'.error_count,
            result := some result,
            message := some ("Skipped: " ++ vacancy_title ++ " (" ++
              (should_apply req v).2 ++ ")") }
        let r := stream_loop req max_applications applied_ids env total rest (i + 1) st'
        (ev :: r.1, r.2)
      else
        -- lines 436-501: apply and emit per status
        match env.apply_result i with
        | .error _ => ([], some .otherExn)
        | .ok response =>
            if response.status = "success" then
              let st' := { st with
                current,
                success_count := st.success_count + 1,
                consecutive_errors := 0 }
              let ev : BulkApplyProgress :=
                { event := "progress", current, total,
                  success_count := some st'.success_count,
                  skipped_count := some st'.skipped_count,
                  error_count := some st'.error_count,
                  result := some response,
                  message := some ("Applied: " ++ vacancy_title) }
              let r := stream_loop req max_applications applied_ids env total rest (i + 1) st'
              (ev :: r.1, r.2)
            else if response.status = "error" then
              let st' := { st with
                current,
                error_count := st.error_count + 1,
                consecutive_errors := st.consecutive_errors + 1 }
              let ev : BulkApplyProgress :=
                { event := "progress", current, total,
                  success_count := some st'.success_count,
                  skipped_count := some st'.skipped_count,
                  error_count := some st'.error_count,
                  result := some response,
                  message := some ("Error: " ++ vacancy_title ++ " - " ++
                    pyStr response.error_detail) }
              let r := stream_loop req max_applications applied_ids env total rest (i + 1) st'
              (ev :: r.1, r.2)
            else
              let st' := { st with current, skipped_count := st.skipped_count + 1 }
              let ev : BulkApplyProgress :=
                { event := "progress", current, total,
                  success_count := some st'.success_count,
                  skipped_count := some st'.skipped_count,
                  error_count := some st'.error_count,
                  result := some response,
                  message := some ("Skipped: " ++ vacancy_title) }
              let r := stream_loop req max_applications applied_ids env total rest (i + 1) st'
              (ev :: r.1, r.2)

/-- The `except` clauses of lines 514-546 applied to events emitted so far:
caught kinds append a terminal `error` event with the current counters and
`total = max_applications`; anything else propagates. -/
def stream_exn_events (evs : List BulkApplyProgress) (e : StreamExn)
    (max_applications current s k ec : Nat) :
    List BulkApplyProgress × Option StreamExn :=
  match e with
  | .netErr msg =>
      (evs ++ [{ event := "error", current, total := max_applications,
                 success_count := some s, skipped_count := some k,
                 error_count := some ec,
                 message := some ("Network error: " ++ msg) }], none)
  | .dbErr msg =>
      (evs ++ [{ event := "error", current, total := max_applications,
                 success_count := some s, skipped_count := some k,
                 error_count := some ec,
                 message := some ("Database error: " ++ msg) }], none)
  | .valueErr msg =>
      (evs ++ [{ event := "error", current, total := max_applications,
                 success_count := some s, skipped_count := some k,
                 error_count := some ec,
                 message := some ("Validation error: " ++ msg) }], none)
  | .otherExn => (evs, some .otherExn)

/-- `ApplicationService.bulk_apply_stream` (lines 289-546): start event,
baseline fetch, search, optional empty-result completion, then the loop. -/
def bulk_apply_stream (req : BulkApplyRequest) (max_applications : Nat)
    (env : StreamEnv) : List BulkApplyProgress × Option StreamExn :=
  let startEv : BulkApplyProgress :=
    { event := "start", current := 0, total := max_applications,
      message := some "Fetching previously applied vacancies..." }
  match env.applied with
  | .error e => stream_exn_events [startEv] e max_applications 0 0 0 0
  | .ok applied_ids =>
    let searchingEv : BulkApplyProgress :=
      { event := "progress", current := 0, total := max_applications,
        message := some ("Searching vacancies for: " ++ req.position ++ "...") }
    match env.search with
    | .error e => stream_exn_events [startEv, searchingEv] e max_applications 0 0 0 0
    | .ok vacancies =>
      if vacancies.isEmpty then
        ([startEv, searchingEv,
          { event := "complete", current := 0, total := 0,
            success_count := some 0, skipped_count := some 0,
            error_count := some 0,
            message := some "No vacancies found matching your criteria" }], none)
      else
        let total := min vacancies.length max_applications
        let foundEv : BulkApplyProgress :=
          { event := "progress", current := 0, total,
            message := some ("Found " ++ toString vacancies.length ++
              " vacancies, processing up to " ++ toString total ++ "...") }
        let r := stream_loop req max_applications applied_ids env total
          vacancies 0 { current := 0, success_count := 0, skipped_count := 0,
                        error_count := 0, consecutive_errors := 0 }
        (startEv :: searchingEv :: foundEv :: r.1, r.2)

/-- An event that ends a run. -/
def isTerminalEvent (p : BulkApplyProgress) : Bool :=
  p.event = "complete" || p.event = "cancelled" || p.event = "error"

/-- The counter equation of spec §8: `success + skipped + error = current`
(absent counters read as 0). -/
def countersSumOk (p : BulkApplyProgress) : Prop :=
  p.success_count.getD 0 + p.skipped_count.getD 0 + p.error_count.getD 0 = p.current

/-- Componentwise order on the progress numbers. -/
def progLE (p q : BulkApplyProgress) : Prop :=
  p.current ≤ q.current ∧ p.success_count.getD 0 ≤ q.success_count.getD 0 ∧
    p.skipped_count.getD 0 ≤ q.skipped_count.getD 0 ∧
    p.error_count.getD 0 ≤ q.error_count.getD 0

/-- A loop state viewed as a progress record (proof device for the chain
invariants). -/
def stateAsProgress (st : StreamState) (total : Nat) : BulkApplyProgress :=
  { event := "state", current := st.current, total,
    success_count := some st.success_count,
    skipped_count := some st.skipped_count,
    error_count := some st.error_count }

/-- Invariant bundle for the events emitted from loop state `st` onwards:
non-empty, counter equation everywhere, exactly one terminal event and it is
last, counters monotone, and strictly increasing `current` over
result-carrying events. -/
def streamEventsOK (st : StreamState) (total : Nat)
    (evs : List BulkApplyProgress) : Prop :=
  evs ≠ [] ∧
    (∀ p ∈ evs, countersSumOk p) ∧
    (∀ p ∈ evs.dropLast, isTerminalEvent p = false) ∧
    (∀ p ∈ evs.getLast?, isTerminalEvent p = true) ∧
    List.Chain' progLE (stateAsProgress st total :: evs) ∧
    List.Chain' (· < ·)
      (st.current :: (evs.filter (fun p => p.result.isSome)).map (fun p => p.current))

lemma progLE_head_congr {a b : BulkApplyProgress}
    (hc : a.current = b.current)
    (hs : a.success_count.getD 0 = b.success_count.getD 0)
    (hk : a.skipped_count.getD 0 = b.skipped_count.getD 0)
    (he : a.error_count.getD 0 = b.error_count.getD 0)
    (c : BulkApplyProgress) : progLE a c ↔ progLE b c := by
  unfold progLE
  rw [hc, hs, hk, he]

lemma chain'_head_transfer {r : BulkApplyProgress → BulkApplyProgress → Prop}
    {a b : BulkApplyProgress} {l : List BulkApplyProgress}
    (hab : ∀ c, r a c ↔ r b c) (h : List.Chain' r (a :: l)) :
    List.Chain' r (b :: l) := by
  cases l with
  | nil => simp
  | cons c l =>
      rw [List.chain'_cons] at h ⊢
      exact ⟨(hab c).mp h.1, h.2⟩

lemma streamEventsOK_single (st : StreamState) (total : Nat)
    (ev : BulkApplyProgress)
    (hc : ev.current = st.current)
    (hs : ev.success_count = some st.success_count)
    (hk : ev.skipped_count = some st.skipped_count)
    (he : ev.error_count = some st.error_count)
    (hterm : isTerminalEvent ev = true)
    (hres : ev.result = none)
    (hinv : st.success_count + st.skipped_count + st.error_count = st.current) :
    streamEventsOK st total [ev] := by
  refine ⟨by simp, ?_, by simp, ?_, ?_, ?_⟩
  · intro p hp
    rw [List.mem_singleton] at hp
    subst hp
    unfold countersSumOk
    rw [hc, hs, hk, he]
    simpa using hinv
  · intro p hp
    simp only [List.getLast?_singleton, Option.mem_some_iff] at hp
    subst hp
    exact hterm
  · refine List.chain'_cons.mpr ⟨?_, by simp⟩
    unfold progLE stateAsProgress
    rw [hc, hs, hk, he]
    simp
  · have : List.filter (fun p => p.result.isSome) [ev] = [] := by
      simp [List.filter, hres]
    rw [this]
    simp

lemma streamEventsOK_cons (st st' : StreamState) (total : Nat)
    (ev : BulkApplyProgress) (evs : List BulkApplyProgress)
    (h : streamEventsOK st' total evs)
    (hc : ev.current = st'.current)
    (hs : ev.success_count = some st'.success_count)
    (hk : ev.skipped_count = some st'.skipped_count)
    (he : ev.error_count = some st'.error_count)
    (hev : ev.event = "progress")
    (hres : ev.result.isSome = true)
    (hle : progLE (stateAsProgress st total) ev)
    (hlt : st.current < st'.current)
    (hsum : countersSumOk ev) :
    streamEventsOK st total (ev :: evs) := by
  obtain ⟨hne, hall, hdrop, hlast, hchain, hcurr⟩ := h
  obtain ⟨e0, l0, rfl⟩ : ∃ e0 l0, evs = e0 :: l0 := by
    cases evs with
    | nil => exact absurd rfl hne
    | cons e0 l0 => exact ⟨e0, l0, rfl⟩
  refine ⟨by simp, ?_, ?_, ?_, ?_, ?_⟩
  · intro p hp
    rcases List.mem_cons.mp hp with rfl | hp'
    · exact hsum
    · exact hall p hp'
  · intro p hp
    rw [List.dropLast_cons₂] at hp
    rcases List.mem_cons.mp hp with rfl | hp'
    · simp [isTerminalEvent, hev]
    · exact hdrop p hp'
  · intro p hp
    rw [List.getLast?_cons_cons] at hp
    exact hlast p hp
  · refine List.chain'_cons.mpr ⟨hle, ?_⟩
    exact chain'_head_transfer
      (progLE_head_congr (by simp [stateAsProgress, hc])
        (by simp [stateAsProgress, hs]) (by simp [stateAsProgress, hk])
        (by simp [stateAsProgress, he])) hchain
  · have hfil : List.filter (fun p => p.result.isSome) (ev :: e0 :: l0) =
        ev :: List.filter (fun p => p.result.isSome) (e0 :: l0) := by
      simp [List.filter_cons, hres]
    rw [hfil, List.map_cons]
    refine List.chain'_cons.mpr ⟨by rw [hc]; exact hlt, ?_⟩
    rw [hc]
    exact hcurr

lemma progLE_state_step (st : StreamState) (total : Nat) (q : BulkApplyProgress)
    (hc : st.current ≤ q.current)
    (hs : st.success_count ≤ q.success_count.getD 0)
    (hk : st.skipped_count ≤ q.skipped_count.getD 0)
    (he : st.error_count ≤ q.error_count.getD 0) :
    progLE (stateAsProgress st total) q := ⟨hc, hs, hk, he⟩

lemma stream_loop_invariants (req : BulkApplyRequest) (max_applications : Nat)
    (applied_ids : List String) (env : StreamEnv) (total : Nat)
    (h3 : ∀ i, env.apply_result i ≠ .error ()) :
    ∀ (l : List Vacancy) (i : Nat) (st : StreamState),
      st.success_count + st.skipped_count + st.error_count = st.current →
      streamEventsOK st total
          (stream_loop req max_applications applied_ids env total l i st).1 ∧
        (stream_loop req max_applications applied_ids env total l i st).2 = none := by
  intro l
  induction l with
  | nil =>
      intro i st hinv
      refine ⟨?_, rfl⟩
      exact streamEventsOK_single st total _ rfl rfl rfl rfl (by simp [isTerminalEvent, completeEvent]) rfl hinv
  | cons v rest ih =>
      intro i st hinv
      unfold stream_loop
      by_cases hcan : env.cancel i = true
      · simp only [hcan, if_true]
        exact ⟨streamEventsOK_single st total _ rfl rfl rfl rfl (by simp [isTerminalEvent, completeEvent]) rfl hinv, trivial⟩
      · simp only [hcan, Bool.false_eq_true, if_false]
        by_cases hmax : st.success_count ≥ max_applications
        · simp only [hmax, if_true]
          exact ⟨streamEventsOK_single st total _ rfl rfl rfl rfl (by simp [isTerminalEvent, completeEvent]) rfl hinv, trivial⟩
        · simp only [hmax, if_false]
          by_cases hcb : st.consecutive_errors ≥ 3
          · simp only [hcb, if_true]
            exact ⟨streamEventsOK_single st total _ rfl rfl rfl rfl (by simp [isTerminalEvent, completeEvent]) rfl hinv, trivial⟩
          · simp only [hcb, if_false]
            by_cases happ : applied_ids.contains (v.id.getD "") = true
            · simp only [happ, if_true]
              obtain ⟨ihOK, ihNone⟩ := ih (i + 1)
                { st with current := st.current + 1, skipped_count := st.skipped_count + 1 }
                (by simp; omega)
              refine ⟨?_, ihNone⟩
              refine streamEventsOK_cons st _ total _ _ ihOK rfl rfl rfl rfl rfl rfl
                ?_ (by simp) ?_
              · exact progLE_state_step st total _ (Nat.le_succ _)
                  (Nat.le_refl _) (Nat.le_succ _) (Nat.le_refl _)
              · unfold countersSumOk
                simp
                omega
            · simp only [happ, Bool.false_eq_true, if_false]
              by_cases hfil : (should_apply req v).1 = true
              · simp only [hfil, Bool.not_true, Bool.false_eq_true, if_false]
                cases har : env.apply_result i with
                | error u => cases u; exact absurd har (h3 i)
                | ok response =>
                    by_cases hsucc : response.status = "success"
                    · simp only [hsucc, if_true]
                      obtain ⟨ihOK, ihNone⟩ := ih (i + 1)
                        { st with current := st.current + 1, success_count := st.success_count + 1, consecutive_errors := 0 }
                        (by simp; omega)
                      refine ⟨?_, ihNone⟩
                      refine streamEventsOK_cons st _ total _ _ ihOK rfl rfl rfl rfl rfl
                        rfl ?_ (by simp) ?_
                      · exact progLE_state_step st total _ (Nat.le_succ _) (Nat.le_succ _)
                          (Nat.le_refl _) (Nat.le_refl _)
                      · unfold countersSumOk
                        simp
                        omega
                    · simp only [hsucc, if_false]
                      by_cases herr : response.status = "error"
                      · simp only [herr, if_true]
                        obtain ⟨ihOK, ihNone⟩ := ih (i + 1)
                          { st with current := st.current + 1, error_count := st.error_count + 1, consecutive_errors := st.consecutive_errors + 1 }
                          (by simp; omega)
                        refine ⟨?_, ihNone⟩
                        refine streamEventsOK_cons st _ total _ _ ihOK rfl rfl rfl rfl rfl
                          rfl ?_ (by simp) ?_
                        · exact progLE_state_step st total _ (Nat.le_succ _)
                            (Nat.le_refl _) (Nat.le_refl _) (Nat.le_succ _)
                        · unfold countersSumOk
                          simp
                          omega
                      · simp only [herr, if_false]
                        obtain ⟨ihOK, ihNone⟩ := ih (i + 1)
                          { st with current := st.current + 1, skipped_count := st.skipped_count + 1 }
                          (by simp; omega)
                        refine ⟨?_, ihNone⟩
                        refine streamEventsOK_cons st _ total _ _ ihOK rfl rfl rfl rfl rfl
                          rfl ?_ (by simp) ?_
                        · exact progLE_state_step st total _ (Nat.le_succ _)
                            (Nat.le_refl _) (Nat.le_succ _) (Nat.le_refl _)
                        · unfold countersSumOk
                          simp
                          omega
              · simp only [hfil, Bool.not_false, if_true]
                obtain ⟨ihOK, ihNone⟩ := ih (i + 1)
                  { st with current := st.current + 1, skipped_count := st.skipped_count + 1 }
                  (by simp; omega)
                refine ⟨?_, ihNone⟩
                refine streamEventsOK_cons st _ total _ _ ihOK rfl rfl rfl rfl rfl rfl
                  ?_ (by simp) ?_
                · exact progLE_state_step st total _ (Nat.le_succ _)
                    (Nat.le_refl _) (Nat.le_succ _) (Nat.le_refl _)
                · unfold countersSumOk
                  simp
                  omega

/-- Environment in which the vacancy search raises `fastapi.HTTPException`
(as `search_vacancies` does on any `HHAPIError`, `hh_client.py` lines
302-306) — a kind no `except` clause of `bulk_apply_stream` catches. -/
def envSearchRaises : StreamEnv :=
  { applied := .ok [], search := .error .otherExn, cancel := fun _ => false,
    apply_result := fun _ => .error () }

/-- C4: the claim says `bulk_apply_stream` never raises to its caller.
False: when the search layer raises `HTTPException` (which
`search_vacancies` produces from any terminal `HHAPIError`), none of the
generator's `except` clauses (`httpx.RequestError`, `SQLAlchemyError`,
`ValueError`) match and the exception propagates. -/
theorem C4_counterexample :
    (bulk_apply_stream { position := "Python", resume_id := "r1" } 10
        envSearchRaises).2 = some .otherExn := by
  rfl

/-- C4 (amended): per-vacancy failures never raise (they are `ApplyResponse`
values in the stream), and run-level `httpx.RequestError`, `SQLAlchemyError`
and `ValueError` become a terminal `error` event; but an exception of any
other kind — e.g. the `HTTPException` that the search or token layer raises
— propagates out of the generator. -/
theorem C4_stream_raises_only_uncaught (req : BulkApplyRequest)
    (max_applications : Nat) (env : StreamEnv)
    (h1 : env.applied ≠ .error .otherExn)
    (h2 : env.search ≠ .error .otherExn)
    (h3 : ∀ i, env.apply_result i ≠ .error ()) :
    (bulk_apply_stream req max_applications env).2 = none := by
  unfold bulk_apply_stream
  cases ha : env.applied with
  | error e =>
      cases e with
      | netErr m => rfl
      | dbErr m => rfl
      | valueErr m => rfl
      | otherExn => exact absurd ha h1
  | ok ids =>
      cases hsr : env.search with
      | error e =>
          cases e with
          | netErr m => rfl
          | dbErr m => rfl
          | valueErr m => rfl
          | otherExn => exact absurd hsr h2
      | ok vacs =>
          by_cases hempty : vacs.isEmpty = true
          · simp only [hempty, if_true]
          · simp only [hempty, Bool.false_eq_true, if_false]
            exact (stream_loop_invariants req max_applications ids env
              (min vacs.length max_applications) h3 vacs 0
              ⟨0, 0, 0, 0, 0⟩ rfl).2

/-- Environment with one vacancy whose application succeeds. -/
def envOneSuccess : StreamEnv :=
  { applied := .ok [], search := .ok [{ id := some "v1", name := some "T" }],
    cancel := fun _ => false,
    apply_result := fun _ => .ok { vacancy_id := "v1", status := "success" } }

/-- Witness for `C4_stream_raises_only_uncaught` at a concrete benign
environment. -/
theorem C4_stream_raises_only_uncaught_witness :
    (bulk_apply_stream { position := "Python", resume_id := "r1" } 5
        envOneSuccess).2 = none :=
  C4_stream_raises_only_uncaught { position := "Python", resume_id := "r1" } 5
    envOneSuccess (by simp [envOneSuccess]) (by simp [envOneSuccess])
    (fun i => by simp [envOneSuccess])

/-- C3: the claim says `current` strictly increases across all events of a
run.  False: a run over one successful vacancy emits currents
`[0, 0, 0, 1, 1]` — the post-start "Searching" and "Found" progress events
both repeat `current = 0` (and `complete` repeats the final value), so the
sequence is not strictly increasing. -/
theorem C3_counterexample :
    ((bulk_apply_stream { position := "Python", resume_id := "r1" } 5
          envOneSuccess).1.map (fun p => p.current)) = [0, 0, 0, 1, 1] ∧
      ¬ List.Chain' (· < ·)
        ((bulk_apply_stream { position := "Python", resume_id := "r1" } 5
          envOneSuccess).1.map (fun p => p.current)) := by
  constructor
  · rfl
  · have h : ((bulk_apply_stream { position := "Python", resume_id := "r1" } 5
          envOneSuccess).1.map (fun p => p.current)) = [0, 0, 0, 1, 1] := rfl
    rw [h]
    simp [List.chain'_cons]

/-- The emission-sequence contract in the amended form: a run starts with
`start`, ends with exactly one terminal event, satisfies the counter
equation everywhere, has monotone counters throughout, and `current`
strictly increases over the result-carrying events (not over all events). -/
def runEmissionOK (evs : List BulkApplyProgress) : Prop :=
  evs ≠ [] ∧
    (evs.head?.map (fun p => p.event)) = some "start" ∧
    (∀ p ∈ evs.getLast?, isTerminalEvent p = true) ∧
    (∀ p ∈ evs.dropLast, isTerminalEvent p = false) ∧
    (∀ p ∈ evs, countersSumOk p) ∧
    List.Chain' progLE evs ∧
    List.Chain' (· < ·)
      ((evs.filter (fun p => p.result.isSome)).map (fun p => p.current))

lemma chain'_progLE_zeros (l : List BulkApplyProgress)
    (hz : ∀ p ∈ l, p.current = 0 ∧ p.success_count.getD 0 = 0 ∧
      p.skipped_count.getD 0 = 0 ∧ p.error_count.getD 0 = 0) :
    List.Chain' progLE l := by
  induction l with
  | nil => simp
  | cons a l ih =>
      cases l with
      | nil => simp
      | cons b l' =>
          rw [List.chain'_cons]
          refine ⟨?_, ih (fun p hp => hz p (List.mem_cons_of_mem _ hp))⟩
          obtain ⟨ha1, ha2, ha3, ha4⟩ := hz a (by simp)
          obtain ⟨hb1, hb2, hb3, hb4⟩ := hz b (by simp)
          exact ⟨by simp [ha1, hb1], by simp [ha2, hb2], by simp [ha3, hb3],
            by simp [ha4, hb4]⟩

lemma runEmissionOK_zeroPrefix_err (evs : List BulkApplyProgress)
    (errEv : BulkApplyProgress)
    (hne : evs ≠ [])
    (hhead : (evs.head?.map (fun p => p.event)) = some "start")
    (hzero : ∀ p ∈ evs, p.current = 0 ∧ p.success_count = none ∧
      p.skipped_count = none ∧ p.error_count = none ∧ p.result = none ∧
      isTerminalEvent p = false)
    (herr : isTerminalEvent errEv = true ∧ errEv.current = 0 ∧
      errEv.success_count = some 0 ∧ errEv.skipped_count = some 0 ∧
      errEv.error_count = some 0 ∧ errEv.result = none) :
    runEmissionOK (evs ++ [errEv]) := by
  obtain ⟨ht, hec, hes, hek, hee, her⟩ := herr
  refine ⟨by simp, ?_, ?_, ?_, ?_, ?_, ?_⟩
  · cases evs with
    | nil => exact absurd rfl hne
    | cons a l => simpa using hhead
  · intro p hp
    rw [List.getLast?_concat, Option.mem_some_iff] at hp
    subst hp
    exact ht
  · intro p hp
    rw [List.dropLast_concat] at hp
    exact (hzero p hp).2.2.2.2.2
  · intro p hp
    rcases List.mem_append.mp hp with hp' | hp'
    · obtain ⟨h1, h2, h3, h4, _, _⟩ := hzero p hp'
      unfold countersSumOk
      rw [h1, h2, h3, h4]
      rfl
    · rw [List.mem_singleton] at hp'
      subst hp'
      unfold countersSumOk
      rw [hec, hes, hek, hee]
      rfl
  · apply chain'_progLE_zeros
    intro p hp
    rcases List.mem_append.mp hp with hp' | hp'
    · obtain ⟨h1, h2, h3, h4, _, _⟩ := hzero p hp'
      exact ⟨h1, by rw [h2]; rfl, by rw [h3]; rfl, by rw [h4]; rfl⟩
    · rw [List.mem_singleton] at hp'
      subst hp'
      exact ⟨hec, by rw [hes]; rfl, by rw [hek]; rfl, by rw [hee]; rfl⟩
  · have hfil : (evs ++ [errEv]).filter (fun p => p.result.isSome) = [] := by
      rw [List.filter_eq_nil]
      intro p hp
      rcases List.mem_append.mp hp with hp' | hp'
      · rw [(hzero p hp').2.2.2.2.1]
        simp
      · rw [List.mem_singleton] at hp'
        subst hp'
        rw [her]
        simp
    rw [hfil]
    simp

/-- C3 (amended): every run that terminates without an uncaught exception
begins with `start`, ends with exactly one terminal event
(`complete`/`cancelled`/`error`), satisfies
`success + skipped + error = current` at every emission, has monotonically
non-decreasing counters between consecutive events, and `current` strictly
increases over the events that carry a `result` — but not over all events
(the post-start search/found progress events repeat `current`). -/
theorem C3_stream_emission_contract (req : BulkApplyRequest)
    (max_applications : Nat) (env : StreamEnv)
    (h1 : env.applied ≠ .error .otherExn)
    (h2 : env.search ≠ .error .otherExn)
    (h3 : ∀ i, env.apply_result i ≠ .error ()) :
    runEmissionOK (bulk_apply_stream req max_applications env).1 := by
  unfold bulk_apply_stream
  cases ha : env.applied with
  | error e =>
      cases e with
      | otherExn => exact absurd ha h1
      | netErr m =>
          refine runEmissionOK_zeroPrefix_err [_] _ (by simp) rfl ?_ ?_
          · intro p hp
            rw [List.mem_singleton] at hp
            subst hp
            exact ⟨rfl, rfl, rfl, rfl, rfl, by simp [isTerminalEvent]⟩
          · exact ⟨by simp [isTerminalEvent], rfl, rfl, rfl, rfl, rfl⟩
      | dbErr m =>
          refine runEmissionOK_zeroPrefix_err [_] _ (by simp) rfl ?_ ?_
          · intro p hp
            rw [List.mem_singleton] at hp
            subst hp
            exact ⟨rfl, rfl, rfl, rfl, rfl, by simp [isTerminalEvent]⟩
          · exact ⟨by simp [isTerminalEvent], rfl, rfl, rfl, rfl, rfl⟩
      | valueErr m =>
          refine runEmissionOK_zeroPrefix_err [_] _ (by simp) rfl ?_ ?_
          · intro p hp
            rw [List.mem_singleton] at hp
            subst hp
            exact ⟨rfl, rfl, rfl, rfl, rfl, by simp [isTerminalEvent]⟩
          · exact ⟨by simp [isTerminalEvent], rfl, rfl, rfl, rfl, rfl⟩
  | ok ids =>
      cases hsr : env.search with
      | error e =>
          cases e with
          | otherExn => exact absurd hsr h2
          | netErr m =>
              refine runEmissionOK_zeroPrefix_err [_, _] _ (by simp) rfl ?_ ?_
              · intro p hp
                rcases List.mem_cons.mp hp with rfl | hp'
                · exact ⟨rfl, rfl, rfl, rfl, rfl, by simp [isTerminalEvent]⟩
                · rw [List.mem_singleton] at hp'
                  subst hp'
                  exact ⟨rfl, rfl, rfl, rfl, rfl, by simp [isTerminalEvent]⟩
              · exact ⟨by simp [isTerminalEvent], rfl, rfl, rfl, rfl, rfl⟩
          | dbErr m =>
              refine runEmissionOK_zeroPrefix_err [_, _] _ (by simp) rfl ?_ ?_
              · intro p hp
                rcases List.mem_cons.mp hp with rfl | hp'
                · exact ⟨rfl, rfl, rfl, rfl, rfl, by simp [isTerminalEvent]⟩
                · rw [List.mem_singleton] at hp'
                  subst hp'
                  exact ⟨rfl, rfl, rfl, rfl, rfl, by simp [isTerminalEvent]⟩
              · exact ⟨by simp [isTerminalEvent], rfl, rfl, rfl, rfl, rfl⟩
          | valueErr m =>
              refine runEmissionOK_zeroPrefix_err [_, _] _ (by simp) rfl ?_ ?_
              · intro p hp
                rcases List.mem_cons.mp hp with rfl | hp'
                · exact ⟨rfl, rfl, rfl, rfl, rfl, by simp [isTerminalEvent]⟩
                · rw [List.mem_singleton] at hp'
                  subst hp'
                  exact ⟨rfl, rfl, rfl, rfl, rfl, by simp [isTerminalEvent]⟩
              · exact ⟨by simp [isTerminalEvent], rfl, rfl, rfl, rfl, rfl⟩
      | ok vacs =>
          by_cases hempty : vacs.isEmpty = true
          · simp only [hempty, if_true]
            refine runEmissionOK_zeroPrefix_err [_, _] _ (by simp) rfl ?_ ?_
            · intro p hp
              rcases List.mem_cons.mp hp with rfl | hp'
              · exact ⟨rfl, rfl, rfl, rfl, rfl, by simp [isTerminalEvent]⟩
              · rw [List.mem_singleton] at hp'
                subst hp'
                exact ⟨rfl, rfl, rfl, rfl, rfl, by simp [isTerminalEvent]⟩
            · exact ⟨by simp [isTerminalEvent], rfl, rfl, rfl, rfl, rfl⟩
          · simp only [hempty, Bool.false_eq_true, if_false]
            obtain ⟨hne, hall, hdrop, hlast, hchain, hcurr⟩ :=
              (stream_loop_invariants req max_applications ids env
                (min vacs.length max_applications) h3 vacs 0 ⟨0, 0, 0, 0, 0⟩ rfl).1
            obtain ⟨e0, l0, hr⟩ : ∃ e0 l0,
                (stream_loop req max_applications ids env
                  (min vacs.length max_applications) vacs 0 ⟨0, 0, 0, 0, 0⟩).1 =
                  e0 :: l0 := by
              cases hLc : (stream_loop req max_applications ids env
                  (min vacs.length max_applications) vacs 0 ⟨0, 0, 0, 0, 0⟩).1 with
              | nil => exact absurd hLc hne
              | cons x xs => exact ⟨x, xs, rfl⟩
            rw [hr] at hall hdrop hlast hchain hcurr ⊢
            refine ⟨by simp, rfl, ?_, ?_, ?_, ?_, ?_⟩
            · intro p hp
              rw [List.getLast?_cons_cons, List.getLast?_cons_cons,
                List.getLast?_cons_cons] at hp
              exact hlast p hp
            · intro p hp
              rw [List.dropLast_cons₂, List.dropLast_cons₂, List.dropLast_cons₂] at hp
              rcases List.mem_cons.mp hp with rfl | hp'
              · simp [isTerminalEvent]
              · rcases List.mem_cons.mp hp' with rfl | hp''
                · simp [isTerminalEvent]
                · rcases List.mem_cons.mp hp'' with rfl | hp'''
                  · simp [isTerminalEvent]
                  · exact hdrop p hp'''
            · intro p hp
              rcases List.mem_cons.mp hp with rfl | hp'
              · exact rfl
              · rcases List.mem_cons.mp hp' with rfl | hp''
                · exact rfl
                · rcases List.mem_cons.mp hp'' with rfl | hp'''
                  · exact rfl
                  · exact hall p hp'''
            · have hpair := List.chain'_cons.mp hchain
              refine List.chain'_cons.mpr ⟨⟨Nat.le_refl _, Nat.le_refl _,
                Nat.le_refl _, Nat.le_refl _⟩, ?_⟩
              refine List.chain'_cons.mpr ⟨⟨Nat.le_refl _, Nat.le_refl _,
                Nat.le_refl _, Nat.le_refl _⟩, ?_⟩
              refine List.chain'_cons.mpr ⟨?_, hpair.2⟩
              exact (progLE_head_congr rfl rfl rfl rfl e0).mp hpair.1
            · have hfil : (List.filter (fun p => p.result.isSome)
                  ({ event := "start", current := 0, total := max_applications,
                     message := some "Fetching previously applied vacancies..." } ::
                   { event := "progress", current := 0, total := max_applications,
                     message := some ("Searching vacancies for: " ++ req.position ++ "...") } ::
                   { event := "progress", current := 0,
                     total := min vacs.length max_applications,
                     message := some ("Found " ++ toString vacs.length ++
                       " vacancies, processing up to " ++
                       toString (min vacs.length max_applications) ++ "...") } ::
                   e0 :: l0 : List BulkApplyProgress)) =
                  List.filter (fun p => p.result.isSome) (e0 :: l0) := by
                simp [List.filter]
              rw [hfil]
              exact hcurr.tail

/-- Witness for `C3_stream_emission_contract` at a concrete benign
environment. -/
theorem C3_stream_emission_contract_witness :
    runEmissionOK (bulk_apply_stream { position := "Python", resume_id := "r1" } 5
      envOneSuccess).1 :=
  C3_stream_emission_contract { position := "Python", resume_id := "r1" } 5
    envOneSuccess (by simp [envOneSuccess]) (by simp [envOneSuccess])
    (fun i => by simp [envOneSuccess])

/-! ### C1 / C10 — Scheduling Core
(`src/app/services/scheduler_service.py`: `_run_auto_apply` lines 271-357,
`_execute_bulk_apply_with_progress` lines 404-474, `_update_run_progress`
lines 476-498, `trigger_manual_run` lines 610-645). -/

/-- The `search_criteria` dict stored in `SchedulerSettings`
(read with `.get` at lines 431-439). -/
structure SearchCriteria where
  position : Option String := none
  resume_id : Option String := none
  skills : Option String := none
  experience : Option String := none
  exclude_companies : Option (List String) := none
  salary_min : Option Int := none
  remote_only : Option Bool := none
  experience_level : Option String := none
  use_cover_letter : Option Bool := none

/-- `SchedulerSettings` row (`src/app/models/scheduler.py`), restricted to
the fields `_run_auto_apply` and `trigger_manual_run` read. -/
structure SchedulerSettings where
  user_id : String
  enabled : Bool
  max_applications_per_run : Nat
  resume_id : Option String := none
  search_criteria : Option SearchCriteria := none

/-- `SchedulerRunHistory` row as the run leaves it; `finished` models
whether `finished_at` was written. -/
structure SchedulerRunHistory where
  user_id : String
  status : String
  applications_sent : Nat := 0
  applications_skipped : Nat := 0
  applications_failed : Nat := 0
  error_message : Option String := none
  finished : Bool := false
deriving DecidableEq

/-- The `BulkApplyRequest(...)` construction of
`_execute_bulk_apply_with_progress` (lines 430-440): note
`resume_id or criteria.get("resume_id", "")`. -/
def build_bulk_request (sc : SearchCriteria) (resume_id : Option String) :
    BulkApplyRequest :=
  { position := sc.position.getD "",
    resume_id :=
      (match resume_id with
        | some r => if r ≠ "" then r else sc.resume_id.getD ""
        | none => sc.resume_id.getD ""),
    skills := sc.skills,
    experience := sc.experience,
    exclude_companies := sc.exclude_companies,
    salary_min := sc.salary_min,
    remote_only := some (sc.remote_only.getD false),
    experience_level := sc.experience_level }

/-- Counter tracking of `_execute_bulk_apply_with_progress` (lines 452-463):
the `sent/skipped/failed` locals follow any event carrying the counter, and
the run-history row is rewritten (via `_update_run_progress`) after every
event that carries a `result`. -/
structure TrackAcc where
  sent : Nat := 0
  skipped : Nat := 0
  failed : Nat := 0
  row_sent : Nat := 0
  row_skipped : Nat := 0
  row_failed : Nat := 0
deriving DecidableEq

/-- One event of the `async for` loop of lines 447-474. -/
def track_step (acc : TrackAcc) (p : BulkApplyProgress) : TrackAcc :=
  let sent := p.success_count.getD acc.sent
  let skipped := p.skipped_count.getD acc.skipped
  let failed := p.error_count.getD acc.failed
  if p.result.isSome then
    { sent, skipped, failed,
      row_sent := sent, row_skipped := skipped, row_failed := failed }
  else
    { acc with sent, skipped, failed }

/-- The whole consumption loop of `_execute_bulk_apply_with_progress`. -/
def execute_bulk_apply_track (evs : List BulkApplyProgress) : TrackAcc :=
  evs.foldl track_step {}

/-- `SchedulerService._run_auto_apply` (lines 271-357): re-entry guard,
settings/enabled/criteria checks, run-history row creation, stream
consumption, then the final `completed` update — or the except-handler
bookkeeping when the stream raises.  The returned pair is the final
run-history row (if one was created) and the exception that escaped
`_run_auto_apply` itself, whose `except` clauses cover only
`httpx.RequestError`, `SQLAlchemyError` and `ValueError`. -/
def run_auto_apply (settings : Option SchedulerSettings) (running : Bool)
    (env : StreamEnv) : Option SchedulerRunHistory × Option StreamExn :=
  if running then (none, none)
  else
    match settings with
    | none => (none, none)
    | some s =>
        if !s.enabled then (none, none)
        else
          match s.search_criteria with
          | none => (none, none)
          | some sc =>
              let req := build_bulk_request sc s.resume_id
              let r := bulk_apply_stream req s.max_applications_per_run env
              let t := execute_bulk_apply_track r.1
              let row0 : SchedulerRunHistory :=
                { user_id := s.user_id, status := "running",
                  applications_sent := t.row_sent,
                  applications_skipped := t.row_skipped,
                  applications_failed := t.row_failed }
              match r.2 with
              | none =>
                  (some { row0 with status := "completed", finished := true }, none)
              | some (.netErr m) =>
                  (some { row0 with status := "failed", finished := true, error_message := some ("Network error: " ++ m) }, none)
              | some (.valueErr m) =>
                  (some { row0 with status := "failed", finished := true, error_message := some m }, none)
              | some (.dbErr _) => (some row0, none)
              | some .otherExn => (some row0, some .otherExn)

/-- `ManualRunResponse` (`src/app/schemas/scheduler.py`). -/
structure ManualRunResponse where
  status : String
  message : String
deriving DecidableEq

/-- `SchedulerService.trigger_manual_run` (lines 610-645): settings and
criteria guards, running-flag guard, then
`asyncio.create_task(self._run_auto_apply(user_id))` — note the spawned call
receives only `user_id`, never `max_applications`. -/
def trigger_manual_run (settings : Option SchedulerSettings) (running : Bool)
    (max_applications : Nat) (env : StreamEnv) :
    ManualRunResponse × (Option SchedulerRunHistory × Option StreamExn) :=
  match settings with
  | none =>
      ({ status := "error",
         message := "No scheduler settings found. Please configure settings first." },
        (none, none))
  | some s =>
      match s.search_criteria with
      | none =>
          ({ status := "error",
             message := "No search criteria configured. Please configure settings first." },
            (none, none))
      | some _ =>
          if running then
            ({ status := "error",
               message := "Auto-apply is already running for this user." },
              (none, none))
          else
            ({ status := "started",
               message := "Manual auto-apply run started with max " ++
                 toString max_applications ++ " applications." },
              run_auto_apply settings false env)

/-- Vacancy `i` of the circuit-breaker scenario. -/
def cbVac (i : Nat) : Vacancy :=
  { id := some ("v" ++ toString i), name := some ("V" ++ toString i) }

/-- Circuit-breaker environment (spec §8 scenario 3): the board returns 5
vacancies and every submission fails with a network error, which
`apply_to_single_vacancy` converts into `ApplyResponse(status="error")`. -/
def envCircuitBreaker : StreamEnv :=
  { applied := .ok [],
    search := .ok [cbVac 0, cbVac 1, cbVac 2, cbVac 3, cbVac 4],
    cancel := fun _ => false,
    apply_result := fun i => .ok
      { vacancy_id := "v" ++ toString i, status := "error",
        vacancy_title := some ("V" ++ toString i),
        error_detail := some "Network error: connection reset" } }

/-- Scheduler settings of the circuit-breaker scenario. -/
def cbSettings : SchedulerSettings :=
  { user_id := "u1", enabled := true, max_applications_per_run := 10,
    resume_id := some "r1",
    search_criteria := some { position := some "Python" } }

/-- C1: the claim says the scheduled run's `SchedulerRunHistory` row is
finalized with `status=failed` (not `status=completed`).  False: the
circuit-breaker `error` event is a *yielded* event, not a raised exception,
so `_run_auto_apply` falls through to its final update and writes
`status="completed"`. -/
theorem C1_counterexample :
    ((run_auto_apply (some cbSettings) false envCircuitBreaker).1.map
      (fun r => r.status)) = some "completed" := by
  rfl

/-- C1 (amended): with 5 vacancies and every submission erroring, the
pipeline halts after 3 consecutive errors, emitting exactly 3
result-carrying progress events (all with error results) plus one terminal
`error` event with message "Too many consecutive errors, stopping"; the
run-history row ends with `applications_failed = 3` — but with
`status = "completed"`, because the stream terminated without raising. -/
theorem C1_circuit_breaker_run :
    (((bulk_apply_stream (build_bulk_request { position := some "Python" }
            (some "r1")) 10 envCircuitBreaker).1.filter
          (fun p => p.result.isSome)).map
        (fun p => (p.event, (p.result.map (fun x => x.status)).getD ""))) =
        [("progress", "error"), ("progress", "error"), ("progress", "error")] ∧
      ((bulk_apply_stream (build_bulk_request { position := some "Python" }
            (some "r1")) 10 envCircuitBreaker).1.getLast?.map
          (fun p => (p.event, p.message))) =
        some ("error", some "Too many consecutive errors, stopping") ∧
      (run_auto_apply (some cbSettings) false envCircuitBreaker).1 =
        some { user_id := "u1", status := "completed", applications_sent := 0,
               applications_skipped := 0, applications_failed := 3,
               error_message := none, finished := true } ∧
      (run_auto_apply (some cbSettings) false envCircuitBreaker).2 = none := by
  refine ⟨rfl, rfl, rfl, rfl⟩

/-- Settings storing `max_applications_per_run = 1`, to demonstrate that a
manual run requested with a larger limit still stops after one success. -/
def settingsStoredMax1 : SchedulerSettings :=
  { user_id := "u1", enabled := true, max_applications_per_run := 1,
    resume_id := some "r1",
    search_criteria := some { position := some "Python" } }

/-- Environment with three applicable vacancies whose submissions all
succeed. -/
def envThreeSuccesses : StreamEnv :=
  { applied := .ok [], search := .ok [cbVac 0, cbVac 1, cbVac 2],
    cancel := fun _ => false,
    apply_result := fun i => .ok
      { vacancy_id := "v" ++ toString i, status := "success" } }

/-- C10: `trigger_manual_run` reports "started with max {requested}" but the
spawned `_run_auto_apply` is called with the `user_id` only, so the pipeline
runs with the stored `max_applications_per_run`: the spawned run is
independent of the requested value, it equals the run at the stored limit,
and concretely a request for 5 applications against settings storing limit 1
sends exactly 1 application while the message still quotes 5. -/
theorem C10_manual_run_ignores_requested_max (s : SchedulerSettings)
    (sc : SearchCriteria) (maxArg : Nat) (env : StreamEnv)
    (hsc : s.search_criteria = some sc) :
    (trigger_manual_run (some s) false maxArg env).1 =
        { status := "started",
          message := "Manual auto-apply run started with max " ++
            toString maxArg ++ " applications." } ∧
      (∀ a b : Nat, (trigger_manual_run (some s) false a env).2 =
        (trigger_manual_run (some s) false b env).2) ∧
      (trigger_manual_run (some s) false maxArg env).2 =
        run_auto_apply (some s) false env ∧
      (trigger_manual_run (some settingsStoredMax1) false 5 envThreeSuccesses).1.message =
        "Manual auto-apply run started with max 5 applications." ∧
      ((trigger_manual_run (some settingsStoredMax1) false 5 envThreeSuccesses).2.1.map
        (fun r => r.applications_sent)) = some 1 := by
  refine ⟨?_, ?_, ?_, rfl, rfl⟩
  · simp [trigger_manual_run, hsc]
  · intro a b
    simp [trigger_manual_run, hsc]
  · simp [trigger_manual_run, hsc]

/-- Witness for `C10_manual_run_ignores_requested_max` at the concrete
stored-limit-1 settings. -/
theorem C10_manual_run_ignores_requested_max_witness :
    (trigger_manual_run (some settingsStoredMax1) false 5 envThreeSuccesses).1 =
        { status := "started",
          message := "Manual auto-apply run started with max " ++
            toString 5 ++ " applications." } ∧
      (∀ a b : Nat,
        (trigger_manual_run (some settingsStoredMax1) false a envThreeSuccesses).2 =
          (trigger_manual_run (some settingsStoredMax1) false b envThreeSuccesses).2) ∧
      (trigger_manual_run (some settingsStoredMax1) false 5 envThreeSuccesses).2 =
        run_auto_apply (some settingsStoredMax1) false envThreeSuccesses ∧
      (trigger_manual_run (some settingsStoredMax1) false 5 envThreeSuccesses).1.message =
        "Manual auto-apply run started with max 5 applications." ∧
      ((trigger_manual_run (some settingsStoredMax1) false 5 envThreeSuccesses).2.1.map
        (fun r => r.applications_sent)) = some 1 :=
  C10_manual_run_ignores_requested_max settingsStoredMax1
    { position := some "Python" } 5 envThreeSuccesses rfl
